import Mathlib

/-!
Verification of the VTF (Valve Texture Format) container parser and pixel
decoder of `vtf_parser.py`, as a shallow embedding in Lean.

Bytes are modelled as `List Nat` (each entry a byte value); Python's clamping
slice semantics are modelled with `List.drop`/`List.take`, and out-of-range
byte reads with `List.getD _ _ 0` (header reads are guarded by the 80-byte
minimum, so the default is never observed there).  The two `f32` header
fields (`reflectivity`, `bump_scale`) are irrelevant to every property
considered here and are kept as raw little-endian bit patterns.
-/

set_option maxRecDepth 4000
set_option linter.unusedVariables false

namespace Vtf

/-- Read one byte (Python `data[off]`, guarded in the source by length checks;
out-of-range reads default to 0). -/
def readU8 (data : List Nat) (off : Nat) : Nat := data.getD off 0

/-- Little-endian 16-bit read, `struct.unpack_from('<H', data, off)`. -/
def readU16 (data : List Nat) (off : Nat) : Nat :=
  readU8 data off + 256 * readU8 data (off + 1)

/-- Little-endian 32-bit unsigned read, `struct.unpack_from('<I', data, off)`. -/
def readU32 (data : List Nat) (off : Nat) : Nat :=
  readU8 data off + 256 * readU8 data (off + 1) + 65536 * readU8 data (off + 2) +
    16777216 * readU8 data (off + 3)

/-- Little-endian 32-bit signed read, `struct.unpack_from('<i', data, off)`
(two's complement). -/
def readI32 (data : List Nat) (off : Nat) : Int :=
  if readU32 data off < 2147483648 then (readU32 data off : Int)
  else (readU32 data off : Int) - 4294967296

/-- The `VtfImageFormat` enum of the source. -/
inductive VtfImageFormat where
  | NONE
  | RGBA8888
  | ABGR8888
  | RGB888
  | BGR888
  | RGB565
  | I8
  | IA88
  | P8
  | A8
  | RGB888_BLUESCREEN
  | BGR888_BLUESCREEN
  | ARGB8888
  | BGRA8888
  | DXT1
  | DXT3
  | DXT5
  | BGRX8888
  | BGR565
  | BGRX5551
  | BGRA4444
  | DXT1_ONEBITALPHA
  | BGRA5551
  | UV88
  | UVWQ8888
  | RGBA16161616F
  | RGBA16161616
  | UVLX8888
  deriving DecidableEq, Repr

/-- `VtfImageFormat(value)`: Python's `IntEnum` constructor, which raises
`ValueError` on a value that is not a member; modelled as `none` in that
case. -/
def VtfImageFormat.ofInt? (i : Int) : Option VtfImageFormat :=
  if i = -1 then some .NONE
  else if i = 0 then some .RGBA8888
  else if i = 1 then some .ABGR8888
  else if i = 2 then some .RGB888
  else if i = 3 then some .BGR888
  else if i = 4 then some .RGB565
  else if i = 5 then some .I8
  else if i = 6 then some .IA88
  else if i = 7 then some .P8
  else if i = 8 then some .A8
  else if i = 9 then some .RGB888_BLUESCREEN
  else if i = 10 then some .BGR888_BLUESCREEN
  else if i = 11 then some .ARGB8888
  else if i = 12 then some .BGRA8888
  else if i = 13 then some .DXT1
  else if i = 14 then some .DXT3
  else if i = 15 then some .DXT5
  else if i = 16 then some .BGRX8888
  else if i = 17 then some .BGR565
  else if i = 18 then some .BGRX5551
  else if i = 19 then some .BGRA4444
  else if i = 20 then some .DXT1_ONEBITALPHA
  else if i = 21 then some .BGRA5551
  else if i = 22 then some .UV88
  else if i = 23 then some .UVWQ8888
  else if i = 24 then some .RGBA16161616F
  else if i = 25 then some .RGBA16161616
  else if i = 26 then some .UVLX8888
  else none

/-- `VtfFile.VTF_SIGNATURE`: the magic constant `0x00465456` ("VTF\0"). -/
def vtfSignature : Nat := 0x00465456

/-- `VtfFile.calculate_image_size`: bytes for an image of the given format and
dimensions.  Block-compressed formats first clamp dimensions up to 4, then use
whole 4x4 blocks; the dictionary lookup's default is `width * height * 4`. -/
def calculate_image_size (format : VtfImageFormat) (width height : Nat) : Nat :=
  let width := if format = .DXT1 ∨ format = .DXT1_ONEBITALPHA ∨ format = .DXT3 ∨
      format = .DXT5 then max 4 width else width
  let height := if format = .DXT1 ∨ format = .DXT1_ONEBITALPHA ∨ format = .DXT3 ∨
      format = .DXT5 then max 4 height else height
  match format with
  | .RGBA8888 => width * height * 4
  | .ABGR8888 => width * height * 4
  | .RGB888 => width * height * 3
  | .BGR888 => width * height * 3
  | .RGB565 => width * height * 2
  | .I8 => width * height
  | .IA88 => width * height * 2
  | .P8 => width * height
  | .A8 => width * height
  | .ARGB8888 => width * height * 4
  | .BGRA8888 => width * height * 4
  | .DXT1 => ((width + 3) / 4) * ((height + 3) / 4) * 8
  | .DXT1_ONEBITALPHA => ((width + 3) / 4) * ((height + 3) / 4) * 8
  | .DXT3 => ((width + 3) / 4) * ((height + 3) / 4) * 16
  | .DXT5 => ((width + 3) / 4) * ((height + 3) / 4) * 16
  | .BGRX8888 => width * height * 4
  | .BGR565 => width * height * 2
  | .BGRX5551 => width * height * 2
  | .BGRA4444 => width * height * 2
  | .BGRA5551 => width * height * 2
  | .UV88 => width * height * 2
  | .UVWQ8888 => width * height * 4
  | .RGBA16161616F => width * height * 8
  | .RGBA16161616 => width * height * 8
  | .UVLX8888 => width * height * 4
  | _ => width * height * 4

/-- The parsed `VtfFile` container.  `reflectivity` and `bump_scale` are kept
as raw little-endian bit patterns (their float interpretation plays no role in
parsing or decoding). -/
structure VtfFile where
  signature : Nat
  version_major : Nat
  version_minor : Nat
  header_size : Nat
  width : Nat
  height : Nat
  flags : Nat
  frames : Nat
  first_frame : Nat
  reflectivity : Nat × Nat × Nat
  bump_scale : Nat
  high_res_format : VtfImageFormat
  mip_count : Nat
  low_res_format : VtfImageFormat
  low_res_width : Nat
  low_res_height : Nat
  depth : Nat
  num_resources : Nat
  mip_data : List (Option (List Nat))
  thumbnail_data : Option (List Nat)
  deriving DecidableEq, Repr

/-- Byte size of mip level `mip` including the frame multiplier: the body of
the loop at lines 138-141 of the source (`mip_size = calculate_image_size(...)
* frame_count`). -/
def levelSize (fmt : VtfImageFormat) (w h fc mip : Nat) : Nat :=
  calculate_image_size fmt (max 1 (w >>> mip)) (max 1 (h >>> mip)) * fc

/-- The mip-reading loop of `VtfFile.parse` (lines 137-145): walk `mip` from
`0` upward, subtract each level's size from the cursor (which starts at the
file length), and slice the level's bytes when the cursor is non-negative,
leaving `none` otherwise. -/
def mipLoop (data : List Nat) (fmt : VtfImageFormat) (w h fc : Nat) :
    Nat → Nat → Int → List (Option (List Nat))
  | _, 0, _ => []
  | mip, n + 1, cur =>
    let msize := levelSize fmt w h fc mip
    let cur' := cur - (msize : Int)
    (if 0 ≤ cur' then some ((data.drop cur'.toNat).take msize) else none) ::
      mipLoop data fmt w h fc (mip + 1) n cur'

/-- The container assembled by the success path of `VtfFile.parse` (header
field reads at their fixed offsets, version-gated `depth`, optional thumbnail
slice, and the mip loop). -/
def parseOk (data : List Nat) (high low : VtfImageFormat) : VtfFile :=
  let header_size := readU32 data 12
  let width := readU16 data 16
  let height := readU16 data 18
  let frames := readU16 data 24
  let version_major := readU32 data 4
  let version_minor := readU32 data 8
  let mip_count := readU8 data 56
  let low_res_width := readU8 data 61
  let low_res_height := readU8 data 62
  let depth := if 7 ≤ version_major ∧ 2 ≤ version_minor then readU16 data 63 else 1
  let thumbnail_data :=
    if low ≠ .NONE ∧ 0 < low_res_width ∧ 0 < low_res_height then
      some ((data.drop header_size).take (calculate_image_size low low_res_width low_res_height))
    else none
  let frame_count := max 1 frames
  { signature := readU32 data 0
    version_major := version_major
    version_minor := version_minor
    header_size := header_size
    width := width
    height := height
    flags := readU32 data 20
    frames := frames
    first_frame := readU16 data 26
    reflectivity := (readU32 data 32, readU32 data 36, readU32 data 40)
    bump_scale := readU32 data 48
    high_res_format := high
    mip_count := mip_count
    low_res_format := low
    low_res_width := low_res_width
    low_res_height := low_res_height
    depth := depth
    num_resources := 0
    mip_data := mipLoop data high width height frame_count 0 mip_count (data.length : Int)
    thumbnail_data := thumbnail_data }

/-- The three ways `VtfFile.parse` can come back to its caller: `returnedNone`
(Python returns `None` after printing a message), `raised` (an uncaught
exception propagates — the `IntEnum` constructor's `ValueError`), or a parsed
container. -/
inductive ParseOutcome where
  | returnedNone
  | raised
  | ok (vtf : VtfFile)
  deriving DecidableEq, Repr

/-- `VtfFile.parse`: length check, signature check, the two `VtfImageFormat`
constructor calls (which raise on undefined codes), then the success path. -/
def parse (data : List Nat) : ParseOutcome :=
  if data.length < 80 then .returnedNone
  else if readU32 data 0 ≠ vtfSignature then .returnedNone
  else
    match VtfImageFormat.ofInt? (readI32 data 52) with
    | none => .raised
    | some high =>
      match VtfImageFormat.ofInt? (readI32 data 57) with
      | none => .raised
      | some low => .ok (parseOk data high low)

/-- Extract the parsed container from an outcome, if any. -/
def ParseOutcome.vtf? : ParseOutcome → Option VtfFile
  | .ok v => some v
  | _ => none

/-- Sum of the (frame-multiplied) sizes of `cnt` consecutive mip levels
starting at level `start`; used to state where the mip loop's cursor lands. -/
def sizeSumFrom (fmt : VtfImageFormat) (w h fc : Nat) : Nat → Nat → Nat
  | _, 0 => 0
  | start, cnt + 1 => levelSize fmt w h fc start + sizeSumFrom fmt w h fc (start + 1) cnt

/-! ### Pixel decoding (`VtfFile._convert_format_to_rgba` and helpers) -/

/-- `VtfFile._decode_rgb565`: expand a 16-bit 5-6-5 color to 8-bit R, G, B. -/
def decode_rgb565 (color : Nat) : Nat × Nat × Nat :=
  (((color >>> 11) &&& 0x1F) * 255 / 31,
   ((color >>> 5) &&& 0x3F) * 255 / 63,
   (color &&& 0x1F) * 255 / 31)

/-- Python slice assignment `l[off:off+len(vs)] = vs` on a bytearray
(writes beyond the end are dropped, matching `List.set`'s no-op there;
in the source all such writes are in range). -/
def setSlice : List Nat → Nat → List Nat → List Nat
  | l, _, [] => l
  | l, off, v :: vs => setSlice (l.set off v) (off + 1) vs

/-- The 16-entry RGBA palette (`colors`) built by `_decompress_dxt1`
(lines 316-343): entries 0/1 are the decoded endpoints with alpha 255;
entries 2/3 depend on the `c0 > c1` comparison of the raw 16-bit values. -/
def dxt1Colors (c0 c1 : Nat) : List Nat :=
  let r0 := (decode_rgb565 c0).1
  let g0 := (decode_rgb565 c0).2.1
  let b0 := (decode_rgb565 c0).2.2
  let r1 := (decode_rgb565 c1).1
  let g1 := (decode_rgb565 c1).2.1
  let b1 := (decode_rgb565 c1).2.2
  [r0, g0, b0, 255, r1, g1, b1, 255] ++
    (if c1 < c0 then
      [(2 * r0 + r1) / 3, (2 * g0 + g1) / 3, (2 * b0 + b1) / 3, 255,
       (r0 + 2 * r1) / 3, (g0 + 2 * g1) / 3, (b0 + 2 * b1) / 3, 255]
    else
      [(r0 + r1) / 2, (g0 + g1) / 2, (b0 + b1) / 2, 255,
       0, 0, 0, 0])

/-- The 12-entry RGB triple list (`colors`) built identically by
`_decompress_dxt3` (lines 389-394) and `_decompress_dxt5` (lines 467-472):
always the 4-color interpolation, with no punch-through entry. -/
def dxtInterpColors (c0 c1 : Nat) : List Nat :=
  let r0 := (decode_rgb565 c0).1
  let g0 := (decode_rgb565 c0).2.1
  let b0 := (decode_rgb565 c0).2.2
  let r1 := (decode_rgb565 c1).1
  let g1 := (decode_rgb565 c1).2.1
  let b1 := (decode_rgb565 c1).2.2
  [r0, g0, b0,
   r1, g1, b1,
   (2 * r0 + r1) / 3, (2 * g0 + g1) / 3, (2 * b0 + b1) / 3,
   (r0 + 2 * r1) / 3, (g0 + 2 * g1) / 3, (b0 + 2 * b1) / 3]

/-- The 8-entry alpha palette of `_decompress_dxt5` (lines 442-458). -/
def dxt5AlphaPalette (a0 a1 : Nat) : List Nat :=
  [a0, a1] ++
    (if a1 < a0 then
      [(6 * a0 + 1 * a1) / 7, (5 * a0 + 2 * a1) / 7, (4 * a0 + 3 * a1) / 7,
       (3 * a0 + 4 * a1) / 7, (2 * a0 + 5 * a1) / 7, (1 * a0 + 6 * a1) / 7]
    else
      [(4 * a0 + 1 * a1) / 5, (3 * a0 + 2 * a1) / 5, (2 * a0 + 3 * a1) / 5,
       (1 * a0 + 4 * a1) / 5, 0, 255])

/-- Per-texel write of `_decompress_dxt1` (lines 359-361): select the
2-bit palette index for texel `t` and copy the 4 palette bytes to the
output offset `o`. -/
def dxt1TexelWrite (colors : List Nat) (indices : Nat) (t o : Nat) (out : List Nat) : List Nat :=
  setSlice out o ((colors.drop (((indices >>> (t * 2)) &&& 0x3) * 4)).take 4)

/-- Per-texel write of `_decompress_dxt3` (lines 408-416): RGB from the
2-bit color index, alpha from the texel's 4-bit nibble expanded by `* 17`. -/
def dxt3TexelWrite (colors : List Nat) (alphas indices : Nat) (t o : Nat)
    (out : List Nat) : List Nat :=
  let ci := (indices >>> (t * 2)) &&& 0x3
  ((((out.set o (colors.getD (ci * 3) 0)).set (o + 1) (colors.getD (ci * 3 + 1) 0)).set
      (o + 2) (colors.getD (ci * 3 + 2) 0)).set (o + 3) (((alphas >>> (t * 4)) &&& 0xF) * 17))

/-- Per-texel write of `_decompress_dxt5` (lines 486-493): RGB from the
2-bit color index, alpha from the 8-entry palette selected by the texel's
3-bit alpha index. -/
def dxt5TexelWrite (colors apal : List Nat) (indices alphaIndices : Nat) (t o : Nat)
    (out : List Nat) : List Nat :=
  let ci := (indices >>> (t * 2)) &&& 0x3
  ((((out.set o (colors.getD (ci * 3) 0)).set (o + 1) (colors.getD (ci * 3 + 1) 0)).set
      (o + 2) (colors.getD (ci * 3 + 2) 0)).set
      (o + 3) (apal.getD ((alphaIndices >>> (t * 3)) &&& 0x7) 0))

/-- The inner `for px in range(4)` loop shared by all three decompressors:
texels outside the declared `width x height` are skipped (`continue`), others
are written at `out_offset = (y*width + x) * 4`. -/
def texelLoopPx (w h bx b_y : Nat) (write : Nat → Nat → List Nat → List Nat) (py : Nat) :
    Nat → Nat → List Nat → List Nat
  | _, 0, out => out
  | px, n + 1, out =>
    texelLoopPx w h bx b_y write py (px + 1) n
      (if w ≤ bx * 4 + px ∨ h ≤ b_y * 4 + py then out
       else write (py * 4 + px) (((b_y * 4 + py) * w + (bx * 4 + px)) * 4) out)

/-- The outer `for py in range(4)` loop shared by all three decompressors. -/
def texelLoopPy (w h bx b_y : Nat) (write : Nat → Nat → List Nat → List Nat) :
    Nat → Nat → List Nat → List Nat
  | _, 0, out => out
  | py, m + 1, out => texelLoopPy w h bx b_y write (py + 1) m (texelLoopPx w h bx b_y write py 0 4 out)

/-- The `for bx in range(block_width)` loop shared by all three
decompressors: a block whose `block_index * block_size + block_size` exceeds
the compressed length `break`s out of the row; otherwise the block is decoded
(`step`) and `block_index` advances. -/
def blockLoopBx (len_c bs : Nat) (step : Nat → Nat → Nat → List Nat → List Nat) (b_y : Nat) :
    Nat → Nat → Nat → List Nat → Nat × List Nat
  | _, 0, bi, out => (bi, out)
  | bx, n + 1, bi, out =>
    if len_c < bi * bs + bs then (bi, out)
    else blockLoopBx len_c bs step b_y (bx + 1) n (bi + 1) (step bi bx b_y out)

/-- The `for by in range(block_height)` loop shared by all three
decompressors, threading `block_index` across rows. -/
def blockLoopBy (len_c bs : Nat) (step : Nat → Nat → Nat → List Nat → List Nat) (bw : Nat) :
    Nat → Nat → Nat → List Nat → Nat × List Nat
  | _, 0, bi, out => (bi, out)
  | b_y, m + 1, bi, out =>
    let r := blockLoopBx len_c bs step b_y 0 bw bi out
    blockLoopBy len_c bs step bw (b_y + 1) m r.1 r.2

/-- One block of `_decompress_dxt1` (lines 307-361): endpoints, palette,
index word, and the 16 texel writes. -/
def dxt1Block (compressed : List Nat) (w h : Nat) (bi bx b_y : Nat) (out : List Nat) : List Nat :=
  let boff := bi * 8
  let c0 := readU8 compressed boff ||| (readU8 compressed (boff + 1) <<< 8)
  let c1 := readU8 compressed (boff + 2) ||| (readU8 compressed (boff + 3) <<< 8)
  let indices := readU8 compressed (boff + 4) ||| (readU8 compressed (boff + 5) <<< 8) |||
    (readU8 compressed (boff + 6) <<< 16) ||| (readU8 compressed (boff + 7) <<< 24)
  texelLoopPy w h bx b_y (dxt1TexelWrite (dxt1Colors c0 c1) indices) 0 4 out

/-- `VtfFile._decompress_dxt1` (8-byte blocks). -/
def decompress_dxt1 (compressed output : List Nat) (w h : Nat) : List Nat :=
  (blockLoopBy compressed.length 8 (dxt1Block compressed w h) ((w + 3) / 4) 0 ((h + 3) / 4)
    0 output).2

/-- One block of `_decompress_dxt3` (lines 373-416): 64-bit explicit alpha
word, endpoints, unconditional 4-color palette, index word, texel writes. -/
def dxt3Block (compressed : List Nat) (w h : Nat) (bi bx b_y : Nat) (out : List Nat) : List Nat :=
  let boff := bi * 16
  let alphas := readU8 compressed boff ||| (readU8 compressed (boff + 1) <<< 8) |||
    (readU8 compressed (boff + 2) <<< 16) ||| (readU8 compressed (boff + 3) <<< 24) |||
    (readU8 compressed (boff + 4) <<< 32) ||| (readU8 compressed (boff + 5) <<< 40) |||
    (readU8 compressed (boff + 6) <<< 48) ||| (readU8 compressed (boff + 7) <<< 56)
  let c0 := readU8 compressed (boff + 8) ||| (readU8 compressed (boff + 9) <<< 8)
  let c1 := readU8 compressed (boff + 10) ||| (readU8 compressed (boff + 11) <<< 8)
  let indices := readU8 compressed (boff + 12) ||| (readU8 compressed (boff + 13) <<< 8) |||
    (readU8 compressed (boff + 14) <<< 16) ||| (readU8 compressed (boff + 15) <<< 24)
  texelLoopPy w h bx b_y (dxt3TexelWrite (dxtInterpColors c0 c1) alphas indices) 0 4 out

/-- `VtfFile._decompress_dxt3` (16-byte blocks). -/
def decompress_dxt3 (compressed output : List Nat) (w h : Nat) : List Nat :=
  (blockLoopBy compressed.length 16 (dxt3Block compressed w h) ((w + 3) / 4) 0 ((h + 3) / 4)
    0 output).2

/-- One block of `_decompress_dxt5` (lines 428-493): alpha endpoints, 48-bit
alpha index word, 8-entry alpha palette, endpoints, unconditional 4-color
palette, index word, texel writes. -/
def dxt5Block (compressed : List Nat) (w h : Nat) (bi bx b_y : Nat) (out : List Nat) : List Nat :=
  let boff := bi * 16
  let a0 := readU8 compressed boff
  let a1 := readU8 compressed (boff + 1)
  let alphaIndices := readU8 compressed (boff + 2) ||| (readU8 compressed (boff + 3) <<< 8) |||
    (readU8 compressed (boff + 4) <<< 16) ||| (readU8 compressed (boff + 5) <<< 24) |||
    (readU8 compressed (boff + 6) <<< 32) ||| (readU8 compressed (boff + 7) <<< 40)
  let c0 := readU8 compressed (boff + 8) ||| (readU8 compressed (boff + 9) <<< 8)
  let c1 := readU8 compressed (boff + 10) ||| (readU8 compressed (boff + 11) <<< 8)
  let indices := readU8 compressed (boff + 12) ||| (readU8 compressed (boff + 13) <<< 8) |||
    (readU8 compressed (boff + 14) <<< 16) ||| (readU8 compressed (boff + 15) <<< 24)
  texelLoopPy w h bx b_y
    (dxt5TexelWrite (dxtInterpColors c0 c1) (dxt5AlphaPalette a0 a1) indices alphaIndices) 0 4 out

/-- `VtfFile._decompress_dxt5` (16-byte blocks). -/
def decompress_dxt5 (compressed output : List Nat) (w h : Nat) : List Nat :=
  (blockLoopBy compressed.length 16 (dxt5Block compressed w h) ((w + 3) / 4) 0 ((h + 3) / 4)
    0 output).2

/-- The per-pixel loop shared by the uncompressed branches of
`_convert_format_to_rgba`: stop (`break`) at the first pixel `i` whose last
required input byte `need i` is out of range, otherwise run the branch's
4-byte write for pixel `i`. -/
def pixelLoop (rawLen : Nat) (need : Nat → Nat) (write : Nat → List Nat → List Nat) :
    Nat → Nat → List Nat → List Nat
  | _, 0, out => out
  | i, n + 1, out =>
    if rawLen ≤ need i then out
    else pixelLoop rawLen need write (i + 1) n (write i out)

/-- Pixel write of the `BGRA8888` branch (lines 222-225). -/
def bgra8888Write (data : List Nat) (i : Nat) (rgba : List Nat) : List Nat :=
  ((((rgba.set (i * 4) (readU8 data (i * 4 + 2))).set (i * 4 + 1) (readU8 data (i * 4 + 1))).set
      (i * 4 + 2) (readU8 data (i * 4))).set (i * 4 + 3) (readU8 data (i * 4 + 3)))

/-- Pixel write of the `RGB888` branch (lines 231-234). -/
def rgb888Write (data : List Nat) (i : Nat) (rgba : List Nat) : List Nat :=
  ((((rgba.set (i * 4) (readU8 data (i * 3))).set (i * 4 + 1) (readU8 data (i * 3 + 1))).set
      (i * 4 + 2) (readU8 data (i * 3 + 2))).set (i * 4 + 3) 255)

/-- Pixel write of the `BGR888` branch (lines 240-243). -/
def bgr888Write (data : List Nat) (i : Nat) (rgba : List Nat) : List Nat :=
  ((((rgba.set (i * 4) (readU8 data (i * 3 + 2))).set (i * 4 + 1) (readU8 data (i * 3 + 1))).set
      (i * 4 + 2) (readU8 data (i * 3))).set (i * 4 + 3) 255)

/-- Pixel write of the `I8` branch (lines 258-261). -/
def i8Write (data : List Nat) (i : Nat) (rgba : List Nat) : List Nat :=
  ((((rgba.set (i * 4) (readU8 data i)).set (i * 4 + 1) (readU8 data i)).set
      (i * 4 + 2) (readU8 data i)).set (i * 4 + 3) 255)

/-- Pixel write of the `A8` branch (lines 267-270). -/
def a8Write (data : List Nat) (i : Nat) (rgba : List Nat) : List Nat :=
  ((((rgba.set (i * 4) 255).set (i * 4 + 1) 255).set
      (i * 4 + 2) 255).set (i * 4 + 3) (readU8 data i))

/-- Pixel write of the `ARGB8888` branch (lines 276-279). -/
def argb8888Write (data : List Nat) (i : Nat) (rgba : List Nat) : List Nat :=
  ((((rgba.set (i * 4) (readU8 data (i * 4 + 1))).set (i * 4 + 1) (readU8 data (i * 4 + 2))).set
      (i * 4 + 2) (readU8 data (i * 4 + 3))).set (i * 4 + 3) (readU8 data (i * 4)))

/-- The fallback loop of the unsupported-format branch (lines 283-287):
`for i in range(0, len(rgba), 4)`, writing the neutral gray pixel. -/
def grayFill : List Nat → Nat → Nat → List Nat
  | out, _, 0 => out
  | out, i, n + 1 =>
    if i < out.length then
      grayFill ((((out.set i 128).set (i + 1) 128).set (i + 2) 128).set (i + 3) 255) (i + 4) n
    else out

/-- The `RGBA8888` branch (line 216): copy `min` bytes of raw data verbatim
over the zeroed output. -/
def sliceAssign (rgba data : List Nat) : List Nat :=
  data.take (min data.length rgba.length) ++ rgba.drop (min data.length rgba.length)

/-- `VtfFile._convert_format_to_rgba`: allocate a zeroed `width*height*4`
buffer and dispatch on the format; formats without a branch fall through to
the gray fill. -/
def convert_format_to_rgba (data : List Nat) (width height : Nat)
    (format : VtfImageFormat) : List Nat :=
  let rgba := List.replicate (width * height * 4) 0
  match format with
  | .RGBA8888 => sliceAssign rgba data
  | .BGRA8888 => pixelLoop data.length (fun i => i * 4 + 3) (bgra8888Write data) 0 (width * height) rgba
  | .RGB888 => pixelLoop data.length (fun i => i * 3 + 2) (rgb888Write data) 0 (width * height) rgba
  | .BGR888 => pixelLoop data.length (fun i => i * 3 + 2) (bgr888Write data) 0 (width * height) rgba
  | .DXT1 => decompress_dxt1 data rgba width height
  | .DXT1_ONEBITALPHA => decompress_dxt1 data rgba width height
  | .DXT3 => decompress_dxt3 data rgba width height
  | .DXT5 => decompress_dxt5 data rgba width height
  | .I8 => pixelLoop data.length (fun i => i) (i8Write data) 0 (width * height) rgba
  | .A8 => pixelLoop data.length (fun i => i) (a8Write data) 0 (width * height) rgba
  | .ARGB8888 => pixelLoop data.length (fun i => i * 4 + 3) (argb8888Write data) 0 (width * height) rgba
  | _ => grayFill rgba 0 rgba.length

/-- The formats that have a decode branch in `_convert_format_to_rgba`. -/
def supportedFormats : List VtfImageFormat :=
  [.RGBA8888, .BGRA8888, .RGB888, .BGR888, .DXT1, .DXT1_ONEBITALPHA, .DXT3, .DXT5,
   .I8, .A8, .ARGB8888]

/-- `p` is an output byte position belonging to some in-bounds texel of the
4x4 block at block coordinates `(bx, b_y)` of a `w x h` image. -/
def blockPos (w h bx b_y p : Nat) : Prop :=
  ∃ x y k, x < w ∧ y < h ∧ x / 4 = bx ∧ y / 4 = b_y ∧ k < 4 ∧ p = (y * w + x) * 4 + k

/-! ### Concrete inputs used by counterexamples and witnesses -/

/-- A 101-byte synthetic VTF: version 7.1, 4x4, format `I8`, `mip_count = 3`,
`frames = 1`, no thumbnail, followed by a 21-byte payload of distinct bytes
(level sizes are 16, 4 and 1). -/
def c1data : List Nat :=
  [0x56, 0x54, 0x46, 0x00,
   7, 0, 0, 0,
   1, 0, 0, 0,
   80, 0, 0, 0,
   4, 0,
   4, 0,
   0, 0, 0, 0,
   1, 0,
   0, 0,
   0, 0, 0, 0,
   0, 0, 0, 0, 0, 0, 0, 0, 0, 0, 0, 0,
   0, 0, 0, 0,
   0, 0, 0, 0,
   5, 0, 0, 0,
   3,
   0xFF, 0xFF, 0xFF, 0xFF,
   0,
   0,
   0, 0] ++ List.replicate 15 0 ++
  [1, 2, 3, 4, 5, 6, 7, 8, 9, 10, 11, 12, 13, 14, 15, 16, 17, 18, 19, 20, 21]

/-- The container `parse` produces on `c1data`. -/
def c1vtf : VtfFile := parseOk c1data VtfImageFormat.I8 VtfImageFormat.NONE

/-- An 80-byte VTF declaring a 64x64 `RGBA8888` image with `mip_count = 1`
but carrying no pixel data at all: the single mip level (16384 bytes) does
not fit, so its computed offset is negative. -/
def c2data : List Nat :=
  [0x56, 0x54, 0x46, 0x00,
   7, 0, 0, 0,
   1, 0, 0, 0,
   80, 0, 0, 0,
   64, 0,
   64, 0,
   0, 0, 0, 0,
   1, 0,
   0, 0,
   0, 0, 0, 0,
   0, 0, 0, 0, 0, 0, 0, 0, 0, 0, 0, 0,
   0, 0, 0, 0,
   0, 0, 0, 0,
   0, 0, 0, 0,
   1,
   0xFF, 0xFF, 0xFF, 0xFF,
   0,
   0,
   0, 0] ++ List.replicate 15 0

/-- An 80-byte VTF with `version_major = 8`, `version_minor = 0` and the
two bytes at offset 63 equal to `5, 0` (so a depth read would yield 5). -/
def c3data : List Nat :=
  [0x56, 0x54, 0x46, 0x00,
   8, 0, 0, 0,
   0, 0, 0, 0,
   80, 0, 0, 0,
   4, 0,
   4, 0,
   0, 0, 0, 0,
   1, 0,
   0, 0,
   0, 0, 0, 0,
   0, 0, 0, 0, 0, 0, 0, 0, 0, 0, 0, 0,
   0, 0, 0, 0,
   0, 0, 0, 0,
   5, 0, 0, 0,
   0,
   0xFF, 0xFF, 0xFF, 0xFF,
   0,
   0,
   5, 0] ++ List.replicate 15 0

/-- An 80-byte input with a valid signature whose `high_res_format` code at
offset 52 is `27`, which is not a member of the pixel-format enum. -/
def c10data : List Nat :=
  [0x56, 0x54, 0x46, 0x00,
   7, 0, 0, 0,
   2, 0, 0, 0,
   80, 0, 0, 0,
   4, 0,
   4, 0,
   0, 0, 0, 0,
   1, 0,
   0, 0,
   0, 0, 0, 0,
   0, 0, 0, 0, 0, 0, 0, 0, 0, 0, 0, 0,
   0, 0, 0, 0,
   0, 0, 0, 0,
   27, 0, 0, 0,
   0,
   0xFF, 0xFF, 0xFF, 0xFF,
   0,
   0,
   0, 0] ++ List.replicate 15 0

/-! ### Generic list helpers -/

theorem getD_set_ne (l : List Nat) (i j a : Nat) (h : i ≠ j) :
    (l.set i a).getD j 0 = l.getD j 0 := by
  simp [List.getD_eq_getElem?_getD, List.getElem?_set_ne h]

theorem getD_set_self (l : List Nat) (i a : Nat) (h : i < l.length) :
    (l.set i a).getD i 0 = a := by
  simp [List.getD_eq_getElem?_getD, List.getElem?_set_self h]

theorem getD_replicate_zero (n i : Nat) : (List.replicate n (0 : Nat)).getD i 0 = 0 := by
  induction n generalizing i with
  | zero => simp [List.getD]
  | succ n ih =>
    cases i with
    | zero => simp [List.replicate]
    | succ i => exact ih i

/-! ### Characterization of the mip loop -/

theorem mipLoop_get (data : List Nat) (fmt : VtfImageFormat) (w h fc : Nat) :
    ∀ (n mip : Nat) (cur : Int) (k : Nat), k < n →
      (mipLoop data fmt w h fc mip n cur).get? k =
        some (if 0 ≤ cur - (sizeSumFrom fmt w h fc mip (k + 1) : Int)
          then some ((data.drop (cur - (sizeSumFrom fmt w h fc mip (k + 1) : Int)).toNat).take
            (levelSize fmt w h fc (mip + k)))
          else none) := by
  intro n
  induction n with
  | zero => intro mip cur k hk; omega
  | succ n ih =>
    intro mip cur k hk
    cases k with
    | zero =>
      show (_ :: _).get? 0 = _
      simp only [List.get?_cons_zero, Option.some.injEq]
      have hs : (sizeSumFrom fmt w h fc mip 1 : Int) = (levelSize fmt w h fc mip : Int) := by
        simp [sizeSumFrom]
      rw [hs]
      simp
    | succ k =>
      show (_ :: mipLoop data fmt w h fc (mip + 1) n _).get? (k + 1) = _
      rw [List.get?_cons_succ, ih (mip + 1) (cur - (levelSize fmt w h fc mip : Int)) k (by omega)]
      have hs : cur - (levelSize fmt w h fc mip : Int) -
          (sizeSumFrom fmt w h fc (mip + 1) (k + 1) : Int) =
          cur - (sizeSumFrom fmt w h fc mip (k + 2) : Int) := by
        have : sizeSumFrom fmt w h fc mip (k + 2) =
            levelSize fmt w h fc mip + sizeSumFrom fmt w h fc (mip + 1) (k + 1) := rfl
        rw [this]; push_cast; ring
      rw [hs]
      have hm : mip + 1 + k = mip + (k + 1) := by omega
      rw [hm]

/-- Inversion principle for a successful `parse`. -/
theorem parse_ok_elim {data : List Nat} {v : VtfFile} (hp : parse data = ParseOutcome.ok v) :
    80 ≤ data.length ∧ readU32 data 0 = vtfSignature ∧
      ∃ high low, VtfImageFormat.ofInt? (readI32 data 52) = some high ∧
        VtfImageFormat.ofInt? (readI32 data 57) = some low ∧ v = parseOk data high low := by
  unfold parse at hp
  split at hp
  · exact absurd hp (by simp)
  · split at hp
    · exact absurd hp (by simp)
    · refine ⟨by omega, by simp_all, ?_⟩
      rcases hh : VtfImageFormat.ofInt? (readI32 data 52) with _ | high
      · rw [hh] at hp; exact absurd hp (by simp)
      · rcases hl : VtfImageFormat.ofInt? (readI32 data 57) with _ | low
        · rw [hh, hl] at hp; exact absurd hp (by simp)
        · rw [hh, hl] at hp
          exact ⟨high, low, rfl, rfl, by injection hp with h; exact h.symm⟩

/-! ### Claim C1 -/

/-- C1, as stated, is false: the mip loop walks level indices from `0` up to
`mip_count - 1`, subtracting from a cursor that starts at the file end, so
level 0 always occupies the final bytes of the file.  On `c1data`
(`mip_count = 3`, `frame_count = 1`, level sizes 16, 4, 1, file length 101)
level 0's bytes are `data[85:101]`, not the range ending at
`101 - (4 + 1) = 96` (that is, `data[80:96]`) that the claim predicts. -/
theorem c1_counterexample :
    parse c1data = ParseOutcome.ok c1vtf ∧
    c1vtf.mip_count = 3 ∧ max 1 c1vtf.frames = 1 ∧ c1data.length = 101 ∧
    levelSize VtfImageFormat.I8 4 4 1 0 = 16 ∧
    levelSize VtfImageFormat.I8 4 4 1 1 = 4 ∧
    levelSize VtfImageFormat.I8 4 4 1 2 = 1 ∧
    c1vtf.mip_data.get? 0 = some (some ((c1data.drop 85).take 16)) ∧
    (c1data.drop 85).take 16 ≠ (c1data.drop 80).take 16 := by
  decide

/-- C1 (amended): mip byte ranges are assigned by walking level indices from
`0` up to `mip_count - 1`, subtracting each level's byte length from a cursor
starting at the file end; level `k`'s range therefore ends at file length
minus the sum of the sizes of the *larger* levels `0 .. k-1`, and level 0's
bytes always end exactly at the file end (for every `mip_count ≥ 1`, not only
`mip_count = 1`). -/
theorem c1_mip_ranges (data : List Nat) (v : VtfFile)
    (hp : parse data = ParseOutcome.ok v) (k : Nat) (hk : k < v.mip_count) :
    v.mip_data.get? k =
      some (if 0 ≤ (data.length : Int) -
          (sizeSumFrom v.high_res_format v.width v.height (max 1 v.frames) 0 (k + 1) : Int)
        then some ((data.drop ((data.length : Int) -
            (sizeSumFrom v.high_res_format v.width v.height (max 1 v.frames) 0 (k + 1) : Int)).toNat).take
          (levelSize v.high_res_format v.width v.height (max 1 v.frames) k))
        else none) := by
  obtain ⟨h80, hsig, high, low, hh, hl, rfl⟩ := parse_ok_elim hp
  simp only [parseOk] at hk ⊢
  simpa using mipLoop_get data high (readU16 data 16) (readU16 data 18)
    (max 1 (readU16 data 24)) (readU8 data 56) 0 (data.length : Int) k hk

theorem c1_mip_ranges_witness :
    c1vtf.mip_data.get? 0 =
      some (some [6, 7, 8, 9, 10, 11, 12, 13, 14, 15, 16, 17, 18, 19, 20, 21]) :=
  (c1_mip_ranges c1data c1vtf (by decide) 0 (by decide)).trans (by decide)

/-! ### Claim C2 -/

/-- C2, as stated, is false: on `c2data` the single declared mip level (16384
bytes) does not fit in the 80-byte file, the computed offset is negative, yet
`parse` returns a successfully parsed container (the level's entry is merely
left as `none`) — there is no `TruncatedFile` error in the code. -/
theorem c2_counterexample :
    parse c2data = ParseOutcome.ok (parseOk c2data VtfImageFormat.RGBA8888 VtfImageFormat.NONE) ∧
    (parseOk c2data VtfImageFormat.RGBA8888 VtfImageFormat.NONE).mip_data = [none] ∧
    (c2data.length : Int) - (levelSize VtfImageFormat.RGBA8888 64 64 1 0 : Int) < 0 := by
  decide

/-- C2 (amended): when the declared mip levels do not fit in the file, `parse`
does not fail: whenever the header checks pass (length ≥ 80, valid signature,
defined format codes), it returns a parsed container, and every mip level
whose computed byte offset is negative simply has its `mip_data` entry left
as `none`. -/
theorem c2_no_truncation_error (data : List Nat) (high low : VtfImageFormat)
    (h80 : 80 ≤ data.length) (hsig : readU32 data 0 = vtfSignature)
    (hh : VtfImageFormat.ofInt? (readI32 data 52) = some high)
    (hl : VtfImageFormat.ofInt? (readI32 data 57) = some low) :
    parse data = ParseOutcome.ok (parseOk data high low) ∧
    ∀ k, k < (parseOk data high low).mip_count →
      (data.length : Int) - (sizeSumFrom high (readU16 data 16) (readU16 data 18)
        (max 1 (readU16 data 24)) 0 (k + 1) : Int) < 0 →
      (parseOk data high low).mip_data.get? k = some none := by
  constructor
  · unfold parse
    rw [if_neg (by omega), if_neg (by simp [hsig]), hh, hl]
  · intro k hk hneg
    simp only [parseOk] at hk ⊢
    rw [mipLoop_get data high (readU16 data 16) (readU16 data 18)
      (max 1 (readU16 data 24)) (readU8 data 56) 0 (data.length : Int) k hk]
    rw [if_neg (by omega)]

theorem c2_no_truncation_error_witness :
    (parseOk c2data VtfImageFormat.RGBA8888 VtfImageFormat.NONE).mip_data.get? 0 = some none :=
  (c2_no_truncation_error c2data VtfImageFormat.RGBA8888 VtfImageFormat.NONE
    (by decide) (by decide) (by decide) (by decide)).2 0 (by decide) (by decide)

/-! ### Claim C3 -/

/-- C3, as stated, is false: the code's version gate is
`version_major >= 7 and version_minor >= 2`, so for `major = 8, minor = 0`
(which satisfies the claim's condition `major > 7`) the depth field at offset
63 is *not* read: on `c3data` those bytes decode to 5, yet the parsed depth
is the default 1. -/
theorem c3_counterexample :
    parse c3data = ParseOutcome.ok (parseOk c3data VtfImageFormat.I8 VtfImageFormat.NONE) ∧
    (parseOk c3data VtfImageFormat.I8 VtfImageFormat.NONE).version_major = 8 ∧
    (parseOk c3data VtfImageFormat.I8 VtfImageFormat.NONE).version_minor = 0 ∧
    readU16 c3data 63 = 5 ∧
    (parseOk c3data VtfImageFormat.I8 VtfImageFormat.NONE).depth = 1 ∧
    (parseOk c3data VtfImageFormat.I8 VtfImageFormat.NONE).depth ≠ readU16 c3data 63 := by
  decide

/-- C3 (amended): for every parsed input, the depth field at offset 63 is read
if and only if `version_major ≥ 7 ∧ version_minor ≥ 2`; in all other cases
(including `version_major ≥ 8` with `version_minor < 2`) depth defaults
to 1. -/
theorem c3_depth_gate (data : List Nat) (v : VtfFile)
    (hp : parse data = ParseOutcome.ok v) :
    v.depth = if 7 ≤ v.version_major ∧ 2 ≤ v.version_minor then readU16 data 63 else 1 := by
  obtain ⟨h80, hsig, high, low, hh, hl, rfl⟩ := parse_ok_elim hp
  simp only [parseOk]

theorem c3_depth_gate_witness :
    (parseOk c3data VtfImageFormat.I8 VtfImageFormat.NONE).depth = 1 :=
  (c3_depth_gate c3data (parseOk c3data VtfImageFormat.I8 VtfImageFormat.NONE)
    (by decide)).trans (by decide)

/-! ### Claim C4 -/

/-- C4 (confirmed): `parse` returns an error result (Python `None`, not a
parsed container) for every input shorter than 80 bytes, and for every input
whose first 4 bytes read as a little-endian u32 differ from the magic
constant `0x00465456` (ASCII "VTF\0"). -/
theorem c4_reject (data : List Nat)
    (h : data.length < 80 ∨ readU32 data 0 ≠ 0x00465456) :
    parse data = ParseOutcome.returnedNone := by
  unfold parse
  rcases h with h | h
  · rw [if_pos h]
  · split
    · rfl
    · rw [if_pos (by simpa [vtfSignature] using h)]

theorem c4_reject_witness : parse [1, 2, 3] = ParseOutcome.returnedNone :=
  c4_reject [1, 2, 3] (by decide)

/-! ### Claim C10 -/

/-- C10 (confirmed): for any input of length ≥ 80 with a valid signature, if
the i32 code at offset 52 (`high_res_format`) or at offset 57
(`low_res_format`) is not a defined pixel-format enum value, `parse` raises
(the `IntEnum` constructor's `ValueError` propagates) instead of returning a
parsed container or a `None` result, so the lenient 4-bytes-per-pixel size
fallback is never reached for such codes. -/
theorem c10_undefined_format_raises (data : List Nat) (h80 : 80 ≤ data.length)
    (hsig : readU32 data 0 = vtfSignature)
    (hbad : VtfImageFormat.ofInt? (readI32 data 52) = none ∨
      VtfImageFormat.ofInt? (readI32 data 57) = none) :
    parse data = ParseOutcome.raised := by
  unfold parse
  rw [if_neg (by omega), if_neg (by simp [hsig])]
  rcases hbad with hb | hb
  · rw [hb]
  · rcases hh : VtfImageFormat.ofInt? (readI32 data 52) with _ | high
    · rfl
    · rw [hb]

theorem c10_undefined_format_raises_witness : parse c10data = ParseOutcome.raised :=
  c10_undefined_format_raises c10data (by decide) (by decide) (Or.inl (by decide))

/-! ### Lemmas about `setSlice` and 4-byte write chains -/

theorem setSlice_length (vs : List Nat) :
    ∀ (l : List Nat) (off : Nat), (setSlice l off vs).length = l.length := by
  induction vs with
  | nil => intro l off; rfl
  | cons v vs ih => intro l off; rw [setSlice, ih]; simp

theorem setSlice_getD_outside (vs : List Nat) :
    ∀ (l : List Nat) (off p : Nat), p < off ∨ off + vs.length ≤ p →
      (setSlice l off vs).getD p 0 = l.getD p 0 := by
  induction vs with
  | nil => intro l off p _; rfl
  | cons v vs ih =>
    intro l off p hp
    simp only [List.length_cons] at hp
    rw [setSlice, ih _ _ _ (by omega)]
    exact getD_set_ne _ _ _ _ (by omega)

theorem setSlice_getD_inside (vs : List Nat) :
    ∀ (l : List Nat) (off k : Nat), k < vs.length → off + vs.length ≤ l.length →
      (setSlice l off vs).getD (off + k) 0 = vs.getD k 0 := by
  induction vs with
  | nil => intro l off k hk; simp at hk
  | cons v vs ih =>
    intro l off k hk hlen
    simp only [List.length_cons] at hk hlen
    cases k with
    | zero =>
      rw [setSlice, setSlice_getD_outside vs _ _ _ (Or.inl (by omega))]
      simpa using getD_set_self l off v (by omega)
    | succ k =>
      rw [setSlice]
      have harr : off + (k + 1) = (off + 1) + k := by omega
      rw [harr, ih (l.set off v) (off + 1) k (by omega) (by simp; omega)]
      simp [List.getD_eq_getElem?_getD]

theorem set4_length (l : List Nat) (o v0 v1 v2 v3 : Nat) :
    ((((l.set o v0).set (o + 1) v1).set (o + 2) v2).set (o + 3) v3).length = l.length := by
  simp

theorem set4_getD_outside (l : List Nat) (o v0 v1 v2 v3 p : Nat) (h : p < o ∨ o + 4 ≤ p) :
    ((((l.set o v0).set (o + 1) v1).set (o + 2) v2).set (o + 3) v3).getD p 0 = l.getD p 0 := by
  rw [getD_set_ne _ _ _ _ (by omega), getD_set_ne _ _ _ _ (by omega),
    getD_set_ne _ _ _ _ (by omega), getD_set_ne _ _ _ _ (by omega)]

theorem set4_getD (l : List Nat) (o v0 v1 v2 v3 k : Nat) (hk : k < 4) (h : o + 3 < l.length) :
    ((((l.set o v0).set (o + 1) v1).set (o + 2) v2).set (o + 3) v3).getD (o + k) 0 =
      [v0, v1, v2, v3].getD k 0 := by
  interval_cases k
  · rw [getD_set_ne _ _ _ _ (by omega), getD_set_ne _ _ _ _ (by omega),
      getD_set_ne _ _ _ _ (by omega)]
    simpa using getD_set_self l o v0 (by omega)
  · rw [getD_set_ne _ _ _ _ (by omega), getD_set_ne _ _ _ _ (by omega)]
    simpa using getD_set_self (l.set o v0) (o + 1) v1 (by simp; omega)
  · rw [getD_set_ne _ _ _ _ (by omega)]
    simpa using getD_set_self ((l.set o v0).set (o + 1) v1) (o + 2) v2 (by simp; omega)
  · simpa using getD_set_self (((l.set o v0).set (o + 1) v1).set (o + 2) v2) (o + 3) v3
      (by simp; omega)

/-- Injectivity of the output position map `(x, y, k) ↦ (y*w + x)*4 + k` for
in-range pixel coordinates. -/
theorem pos_inj {w x x' y y' k k' : Nat} (hx : x < w) (hx' : x' < w) (hk : k < 4) (hk' : k' < 4)
    (he : (y * w + x) * 4 + k = (y' * w + x') * 4 + k') : x = x' ∧ y = y' ∧ k = k' := by
  have hw : 0 < w := by omega
  have h1 : y * w + x = y' * w + x' ∧ k = k' := by
    set A := y * w + x with hA
    set B := y' * w + x' with hB
    omega
  obtain ⟨h1, hkk⟩ := h1
  have e1 : (y * w + x) % w = x := by
    rw [add_comm, mul_comm, Nat.add_mul_mod_self_left]
    exact Nat.mod_eq_of_lt hx
  have e2 : (y' * w + x') % w = x' := by
    rw [add_comm, mul_comm, Nat.add_mul_mod_self_left]
    exact Nat.mod_eq_of_lt hx'
  have hxx : x = x' := by rw [← e1, ← e2, h1]
  have hyy : y = y' := by
    have hm : y * w = y' * w := by omega
    exact Nat.eq_of_mul_eq_mul_right hw hm
  exact ⟨hxx, hyy, hkk⟩

/-! ### Lemmas about the shared texel loops -/

theorem texelLoopPx_length (w h bx b_y : Nat) (write : Nat → Nat → List Nat → List Nat)
    (py : Nat) (Hlen : ∀ t o out, (write t o out).length = out.length) :
    ∀ (n px : Nat) (out : List Nat),
      (texelLoopPx w h bx b_y write py px n out).length = out.length := by
  intro n
  induction n with
  | zero => intro px out; rfl
  | succ n ih =>
    intro px out
    rw [texelLoopPx, ih]
    split
    · rfl
    · exact Hlen _ _ _

theorem texelLoopPy_length (w h bx b_y : Nat) (write : Nat → Nat → List Nat → List Nat)
    (Hlen : ∀ t o out, (write t o out).length = out.length) :
    ∀ (m py : Nat) (out : List Nat),
      (texelLoopPy w h bx b_y write py m out).length = out.length := by
  intro m
  induction m with
  | zero => intro py out; rfl
  | succ m ih =>
    intro py out
    rw [texelLoopPy, ih, texelLoopPx_length w h bx b_y write py Hlen]

theorem texelLoopPx_untouched (w h bx b_y : Nat) (write : Nat → Nat → List Nat → List Nat)
    (py : Nat) (Hout : ∀ t o out p, p < o ∨ o + 4 ≤ p →
      (write t o out).getD p 0 = out.getD p 0) (hpy : py < 4) :
    ∀ (n px : Nat) (out : List Nat) (p : Nat), px + n ≤ 4 → ¬ blockPos w h bx b_y p →
      (texelLoopPx w h bx b_y write py px n out).getD p 0 = out.getD p 0 := by
  intro n
  induction n with
  | zero => intro px out p _ _; rfl
  | succ n ih =>
    intro px out p hb hnb
    rw [texelLoopPx, ih (px + 1) _ p (by omega) hnb]
    split
    · rfl
    · rename_i hg
      push_neg at hg
      obtain ⟨hxw, hyh⟩ := hg
      apply Hout
      set q := (b_y * 4 + py) * w + (bx * 4 + px) with hq
      by_contra hcon
      push_neg at hcon
      exact hnb ⟨bx * 4 + px, b_y * 4 + py, p - q * 4, hxw, hyh, by omega, by omega,
        by omega, by omega⟩

theorem texelLoopPx_untouched_byOffset (w h bx b_y : Nat)
    (write : Nat → Nat → List Nat → List Nat) (py : Nat)
    (Hout : ∀ t o out p, p < o ∨ o + 4 ≤ p → (write t o out).getD p 0 = out.getD p 0) :
    ∀ (n px : Nat) (out : List Nat) (p : Nat),
      (∀ x', x' < w → p < ((b_y * 4 + py) * w + x') * 4 ∨
        ((b_y * 4 + py) * w + x') * 4 + 4 ≤ p) →
      (texelLoopPx w h bx b_y write py px n out).getD p 0 = out.getD p 0 := by
  intro n
  induction n with
  | zero => intro px out p _; rfl
  | succ n ih =>
    intro px out p Hp
    rw [texelLoopPx, ih (px + 1) _ p Hp]
    split
    · rfl
    · rename_i hg
      push_neg at hg
      exact Hout _ _ _ _ (Hp (bx * 4 + px) hg.1)

theorem texelLoopPx_untouched_gt (w h bx b_y : Nat)
    (write : Nat → Nat → List Nat → List Nat) (py : Nat)
    (Hout : ∀ t o out p, p < o ∨ o + 4 ≤ p → (write t o out).getD p 0 = out.getD p 0) :
    ∀ (n px : Nat) (out : List Nat) (px0 k : Nat), px0 < px → k < 4 →
      (texelLoopPx w h bx b_y write py px n out).getD
          (((b_y * 4 + py) * w + (bx * 4 + px0)) * 4 + k) 0 =
        out.getD (((b_y * 4 + py) * w + (bx * 4 + px0)) * 4 + k) 0 := by
  intro n
  induction n with
  | zero => intro px out px0 k _ _; rfl
  | succ n ih =>
    intro px out px0 k hlt hk
    rw [texelLoopPx, ih (px + 1) _ px0 k (by omega) hk]
    split
    · rfl
    · apply Hout
      set Z := (b_y * 4 + py) * w with hZ
      omega

theorem texelLoopPx_readback (w h bx b_y : Nat) (write : Nat → Nat → List Nat → List Nat)
    (py : Nat) (wv : Nat → Nat → Nat)
    (Hlen : ∀ t o out, (write t o out).length = out.length)
    (Hout : ∀ t o out p, p < o ∨ o + 4 ≤ p → (write t o out).getD p 0 = out.getD p 0)
    (Hval : ∀ t o out, o + 3 < out.length → ∀ k, k < 4 →
      (write t o out).getD (o + k) 0 = wv t k) :
    ∀ (n px : Nat) (out : List Nat) (px0 k : Nat), px ≤ px0 → px0 < px + n → k < 4 →
      bx * 4 + px0 < w → b_y * 4 + py < h →
      ((b_y * 4 + py) * w + (bx * 4 + px0)) * 4 + 3 < out.length →
      (texelLoopPx w h bx b_y write py px n out).getD
          (((b_y * 4 + py) * w + (bx * 4 + px0)) * 4 + k) 0 = wv (py * 4 + px0) k := by
  intro n
  induction n with
  | zero => intro px out px0 k h1 h2; omega
  | succ n ih =>
    intro px out px0 k h1 h2 hk hxw hyh hlen
    rw [texelLoopPx]
    rcases Nat.eq_or_lt_of_le h1 with heq | hlt
    · subst heq
      rw [if_neg (by omega)]
      rw [texelLoopPx_untouched_gt w h bx b_y write py Hout n (px + 1) _ px k (by omega) hk]
      exact Hval _ _ _ hlen k hk
    · have hstep : (if w ≤ bx * 4 + px ∨ h ≤ b_y * 4 + py then out
          else write (py * 4 + px) (((b_y * 4 + py) * w + (bx * 4 + px)) * 4) out).length =
          out.length := by
        split
        · rfl
        · exact Hlen _ _ _
      exact ih (px + 1) _ px0 k (by omega) (by omega) hk hxw hyh (by rw [hstep]; exact hlen)

theorem texelLoopPy_untouched (w h bx b_y : Nat) (write : Nat → Nat → List Nat → List Nat)
    (Hout : ∀ t o out p, p < o ∨ o + 4 ≤ p → (write t o out).getD p 0 = out.getD p 0) :
    ∀ (m py : Nat) (out : List Nat) (p : Nat), py + m ≤ 4 → ¬ blockPos w h bx b_y p →
      (texelLoopPy w h bx b_y write py m out).getD p 0 = out.getD p 0 := by
  intro m
  induction m with
  | zero => intro py out p _ _; rfl
  | succ m ih =>
    intro py out p hb hnb
    rw [texelLoopPy, ih (py + 1) _ p (by omega) hnb]
    exact texelLoopPx_untouched w h bx b_y write py Hout (by omega) 4 0 out p (by omega) hnb

theorem texelLoopPy_untouched_byOffset (w h bx b_y : Nat)
    (write : Nat → Nat → List Nat → List Nat)
    (Hout : ∀ t o out p, p < o ∨ o + 4 ≤ p → (write t o out).getD p 0 = out.getD p 0) :
    ∀ (m py : Nat) (out : List Nat) (p : Nat),
      (∀ py' x', py ≤ py' → py' < py + m → x' < w →
        p < ((b_y * 4 + py') * w + x') * 4 ∨ ((b_y * 4 + py') * w + x') * 4 + 4 ≤ p) →
      (texelLoopPy w h bx b_y write py m out).getD p 0 = out.getD p 0 := by
  intro m
  induction m with
  | zero => intro py out p _; rfl
  | succ m ih =>
    intro py out p Hp
    rw [texelLoopPy, ih (py + 1) _ p (fun py' x' hge hlt hx' => Hp py' x' (by omega) (by omega) hx')]
    exact texelLoopPx_untouched_byOffset w h bx b_y write py Hout 4 0 out p
      (fun x' hx' => Hp py x' (by omega) (by omega) hx')

theorem texelLoopPy_readback (w h bx b_y : Nat) (write : Nat → Nat → List Nat → List Nat)
    (wv : Nat → Nat → Nat)
    (Hlen : ∀ t o out, (write t o out).length = out.length)
    (Hout : ∀ t o out p, p < o ∨ o + 4 ≤ p → (write t o out).getD p 0 = out.getD p 0)
    (Hval : ∀ t o out, o + 3 < out.length → ∀ k, k < 4 →
      (write t o out).getD (o + k) 0 = wv t k) :
    ∀ (m py : Nat) (out : List Nat) (py0 px0 k : Nat), py ≤ py0 → py0 < py + m →
      px0 < 4 → k < 4 → bx * 4 + px0 < w → b_y * 4 + py0 < h →
      ((b_y * 4 + py0) * w + (bx * 4 + px0)) * 4 + 3 < out.length →
      (texelLoopPy w h bx b_y write py m out).getD
          (((b_y * 4 + py0) * w + (bx * 4 + px0)) * 4 + k) 0 = wv (py0 * 4 + px0) k := by
  intro m
  induction m with
  | zero => intro py out py0 px0 k h1 h2; omega
  | succ m ih =>
    intro py out py0 px0 k h1 h2 hpx0 hk hxw hyh hlen
    rw [texelLoopPy]
    rcases Nat.eq_or_lt_of_le h1 with heq | hlt
    · subst heq
      rw [texelLoopPy_untouched_byOffset w h bx b_y write Hout m (py + 1) _ _ ?later]
      · exact texelLoopPx_readback w h bx b_y write py wv Hlen Hout Hval 4 0 out px0 k
          (by omega) (by omega) hk hxw hyh hlen
      case later =>
        intro py' x' hge hltr hx'
        left
        have hmul : (b_y * 4 + py + 1) * w ≤ (b_y * 4 + py') * w :=
          Nat.mul_le_mul_right w (by omega)
        have hsucc : (b_y * 4 + py + 1) * w = (b_y * 4 + py) * w + w := by
          rw [Nat.succ_mul]
        set Z0 := (b_y * 4 + py) * w with hZ0
        set Z1 := (b_y * 4 + py') * w with hZ1
        omega
    · have hrow : (texelLoopPx w h bx b_y write py 0 4 out).length = out.length :=
        texelLoopPx_length w h bx b_y write py Hlen 4 0 out
      exact ih (py + 1) _ py0 px0 k (by omega) (by omega) hpx0 hk hxw hyh
        (by rw [hrow]; exact hlen)

/-! ### Lemmas about the shared block loops -/

theorem blockLoopBx_snd_length (len_c bs : Nat) (step : Nat → Nat → Nat → List Nat → List Nat)
    (b_y : Nat) (HstepLen : ∀ bi bx c out, (step bi bx c out).length = out.length) :
    ∀ (n bx bi : Nat) (out : List Nat),
      ((blockLoopBx len_c bs step b_y bx n bi out).2).length = out.length := by
  intro n
  induction n with
  | zero => intro bx bi out; rfl
  | succ n ih =>
    intro bx bi out
    rw [blockLoopBx]
    split
    · rfl
    · rw [ih, HstepLen]

theorem blockLoopBy_snd_length (len_c bs : Nat) (step : Nat → Nat → Nat → List Nat → List Nat)
    (bw : Nat) (HstepLen : ∀ bi bx c out, (step bi bx c out).length = out.length) :
    ∀ (m b_y bi : Nat) (out : List Nat),
      ((blockLoopBy len_c bs step bw b_y m bi out).2).length = out.length := by
  intro m
  induction m with
  | zero => intro b_y bi out; rfl
  | succ m ih =>
    intro b_y bi out
    rw [blockLoopBy, ih, blockLoopBx_snd_length len_c bs step b_y HstepLen]

theorem blockLoopBx_nop (len_c bs : Nat) (step : Nat → Nat → Nat → List Nat → List Nat)
    (b_y : Nat) : ∀ (n bx bi : Nat) (out : List Nat), len_c < bi * bs + bs →
      blockLoopBx len_c bs step b_y bx n bi out = (bi, out) := by
  intro n
  cases n with
  | zero => intro bx bi out _; rfl
  | succ n => intro bx bi out hlt; rw [blockLoopBx, if_pos hlt]

theorem blockLoopBy_nop (len_c bs : Nat) (step : Nat → Nat → Nat → List Nat → List Nat)
    (bw : Nat) : ∀ (m b_y bi : Nat) (out : List Nat), len_c < bi * bs + bs →
      blockLoopBy len_c bs step bw b_y m bi out = (bi, out) := by
  intro m
  induction m with
  | zero => intro b_y bi out _; rfl
  | succ m ih =>
    intro b_y bi out hlt
    rw [blockLoopBy, blockLoopBx_nop len_c bs step b_y bw 0 bi out hlt]
    exact ih (b_y + 1) bi out hlt

theorem blockLoopBx_fst (len_c bs : Nat) (step : Nat → Nat → Nat → List Nat → List Nat)
    (b_y : Nat) : ∀ (n bx bi : Nat) (out : List Nat),
      (blockLoopBx len_c bs step b_y bx n bi out).1 = bi + n ∨
        len_c < (blockLoopBx len_c bs step b_y bx n bi out).1 * bs + bs := by
  intro n
  induction n with
  | zero => intro bx bi out; left; rfl
  | succ n ih =>
    intro bx bi out
    rw [blockLoopBx]
    split
    · rename_i hlt
      right
      exact hlt
    · rcases ih (bx + 1) (bi + 1) (step bi bx b_y out) with hfull | hfrozen
      · left; omega
      · right; exact hfrozen

theorem blockLoopBx_untouched (w h len_c bs : Nat)
    (step : Nat → Nat → Nat → List Nat → List Nat) (b_y : Nat)
    (HstepOut : ∀ bi bx c out p, ¬ blockPos w h bx c p →
      (step bi bx c out).getD p 0 = out.getD p 0) :
    ∀ (n bx bi : Nat) (out : List Nat) (p : Nat),
      (∀ j, j < n → ¬ blockPos w h (bx + j) b_y p ∨ len_c < (bi + j) * bs + bs) →
      ((blockLoopBx len_c bs step b_y bx n bi out).2).getD p 0 = out.getD p 0 := by
  intro n
  induction n with
  | zero => intro bx bi out p _; rfl
  | succ n ih =>
    intro bx bi out p Hp
    rw [blockLoopBx]
    split
    · rfl
    · rename_i hfits
      have h0 : ¬ blockPos w h bx b_y p := by
        rcases Hp 0 (by omega) with hnb | hlt
        · simpa using hnb
        · simp only [Nat.add_zero] at hlt
          exact absurd hlt hfits
      rw [ih (bx + 1) (bi + 1) _ p
        (fun j hj => by
          have := Hp (j + 1) (by omega)
          rcases this with hnb | hlt
          · left
            have : bx + (j + 1) = bx + 1 + j := by omega
            rwa [this] at hnb
          · right
            have : bi + (j + 1) = bi + 1 + j := by omega
            rwa [this] at hlt)]
      exact HstepOut _ _ _ _ _ h0

theorem blockLoopBy_untouched (w h len_c bs : Nat)
    (step : Nat → Nat → Nat → List Nat → List Nat) (bw : Nat)
    (HstepOut : ∀ bi bx c out p, ¬ blockPos w h bx c p →
      (step bi bx c out).getD p 0 = out.getD p 0) :
    ∀ (m b_y bi : Nat) (out : List Nat) (p : Nat),
      (∀ jy jx, jy < m → jx < bw → ¬ blockPos w h jx (b_y + jy) p ∨
        len_c < (bi + jy * bw + jx) * bs + bs) →
      ((blockLoopBy len_c bs step bw b_y m bi out).2).getD p 0 = out.getD p 0 := by
  intro m
  induction m with
  | zero => intro b_y bi out p _; rfl
  | succ m ih =>
    intro b_y bi out p Hp
    rw [blockLoopBy]
    have hrow : ((blockLoopBx len_c bs step b_y 0 bw bi out).2).getD p 0 = out.getD p 0 := by
      apply blockLoopBx_untouched w h len_c bs step b_y HstepOut bw 0 bi out p
      intro j hj
      have := Hp 0 j (by omega) hj
      simpa using this
    rcases blockLoopBx_fst len_c bs step b_y bw 0 bi out with hfull | hfrozen
    · rw [ih (b_y + 1) _ _ p ?shifted]
      · exact hrow
      case shifted =>
        intro jy jx hjy hjx
        have := Hp (jy + 1) jx (by omega) hjx
        rcases this with hnb | hlt
        · left
          have : b_y + (jy + 1) = b_y + 1 + jy := by omega
          rwa [this] at hnb
        · right
          rw [hfull]
          have hmul : (jy + 1) * bw = jy * bw + bw := by rw [Nat.succ_mul]
          have harr : bi + (jy + 1) * bw + jx = bi + bw + jy * bw + jx := by omega
          rwa [harr] at hlt
    · rw [blockLoopBy_nop len_c bs step bw m (b_y + 1)
        (blockLoopBx len_c bs step b_y 0 bw bi out).1
        (blockLoopBx len_c bs step b_y 0 bw bi out).2 hfrozen]
      exact hrow

/-! ### Write-spec lemmas for the per-texel writers -/

theorem dxt1TexelWrite_length (colors : List Nat) (ind t o : Nat) (out : List Nat) :
    (dxt1TexelWrite colors ind t o out).length = out.length :=
  setSlice_length _ _ _

theorem dxt1TexelWrite_outside (colors : List Nat) (ind t o : Nat) (out : List Nat) (p : Nat)
    (h : p < o ∨ o + 4 ≤ p) :
    (dxt1TexelWrite colors ind t o out).getD p 0 = out.getD p 0 := by
  unfold dxt1TexelWrite
  apply setSlice_getD_outside
  have hlen : ((colors.drop (((ind >>> (t * 2)) &&& 0x3) * 4)).take 4).length ≤ 4 := by
    simp [List.length_take]
  omega

theorem dxt1TexelWrite_getD (colors : List Nat) (ind t o : Nat) (out : List Nat)
    (hcl : colors.length = 16) (h : o + 3 < out.length) (k : Nat) (hk : k < 4) :
    (dxt1TexelWrite colors ind t o out).getD (o + k) 0 =
      ((colors.drop (((ind >>> (t * 2)) &&& 0x3) * 4)).take 4).getD k 0 := by
  unfold dxt1TexelWrite
  apply setSlice_getD_inside
  · have hci : (ind >>> (t * 2)) &&& 0x3 ≤ 3 := Nat.and_le_right
    simp [List.length_take, List.length_drop, hcl]
    omega
  · have hlen : ((colors.drop (((ind >>> (t * 2)) &&& 0x3) * 4)).take 4).length ≤ 4 := by
      simp [List.length_take]
    omega

theorem dxt3TexelWrite_length (colors : List Nat) (alphas ind t o : Nat) (out : List Nat) :
    (dxt3TexelWrite colors alphas ind t o out).length = out.length := by
  unfold dxt3TexelWrite
  exact set4_length _ _ _ _ _ _

theorem dxt3TexelWrite_outside (colors : List Nat) (alphas ind t o : Nat) (out : List Nat)
    (p : Nat) (h : p < o ∨ o + 4 ≤ p) :
    (dxt3TexelWrite colors alphas ind t o out).getD p 0 = out.getD p 0 := by
  unfold dxt3TexelWrite
  exact set4_getD_outside _ _ _ _ _ _ _ h

theorem dxt3TexelWrite_getD (colors : List Nat) (alphas ind t o : Nat) (out : List Nat)
    (h : o + 3 < out.length) (k : Nat) (hk : k < 4) :
    (dxt3TexelWrite colors alphas ind t o out).getD (o + k) 0 =
      [colors.getD (((ind >>> (t * 2)) &&& 0x3) * 3) 0,
       colors.getD (((ind >>> (t * 2)) &&& 0x3) * 3 + 1) 0,
       colors.getD (((ind >>> (t * 2)) &&& 0x3) * 3 + 2) 0,
       ((alphas >>> (t * 4)) &&& 0xF) * 17].getD k 0 := by
  unfold dxt3TexelWrite
  exact set4_getD _ _ _ _ _ _ _ hk h

theorem dxt5TexelWrite_length (colors apal : List Nat) (ind aind t o : Nat) (out : List Nat) :
    (dxt5TexelWrite colors apal ind aind t o out).length = out.length := by
  unfold dxt5TexelWrite
  exact set4_length _ _ _ _ _ _

theorem dxt5TexelWrite_outside (colors apal : List Nat) (ind aind t o : Nat) (out : List Nat)
    (p : Nat) (h : p < o ∨ o + 4 ≤ p) :
    (dxt5TexelWrite colors apal ind aind t o out).getD p 0 = out.getD p 0 := by
  unfold dxt5TexelWrite
  exact set4_getD_outside _ _ _ _ _ _ _ h

theorem dxt5TexelWrite_getD (colors apal : List Nat) (ind aind t o : Nat) (out : List Nat)
    (h : o + 3 < out.length) (k : Nat) (hk : k < 4) :
    (dxt5TexelWrite colors apal ind aind t o out).getD (o + k) 0 =
      [colors.getD (((ind >>> (t * 2)) &&& 0x3) * 3) 0,
       colors.getD (((ind >>> (t * 2)) &&& 0x3) * 3 + 1) 0,
       colors.getD (((ind >>> (t * 2)) &&& 0x3) * 3 + 2) 0,
       apal.getD ((aind >>> (t * 3)) &&& 0x7) 0].getD k 0 := by
  unfold dxt5TexelWrite
  exact set4_getD _ _ _ _ _ _ _ hk h

/-! ### Block-step spec lemmas and decompressor facts -/

theorem dxt1Block_length (compressed : List Nat) (w h bi bx b_y : Nat) (out : List Nat) :
    (dxt1Block compressed w h bi bx b_y out).length = out.length := by
  unfold dxt1Block
  exact texelLoopPy_length w h bx b_y _ (fun t o out => dxt1TexelWrite_length _ _ t o out) 4 0 out

theorem dxt1Block_outside (compressed : List Nat) (w h : Nat) :
    ∀ (bi bx c : Nat) (out : List Nat) (p : Nat), ¬ blockPos w h bx c p →
      (dxt1Block compressed w h bi bx c out).getD p 0 = out.getD p 0 := by
  intro bi bx c out p hnb
  unfold dxt1Block
  exact texelLoopPy_untouched w h bx c _
    (fun t o out p hp => dxt1TexelWrite_outside _ _ t o out p hp) 4 0 out p (by omega) hnb

theorem dxt3Block_length (compressed : List Nat) (w h bi bx b_y : Nat) (out : List Nat) :
    (dxt3Block compressed w h bi bx b_y out).length = out.length := by
  unfold dxt3Block
  exact texelLoopPy_length w h bx b_y _ (fun t o out => dxt3TexelWrite_length _ _ _ t o out) 4 0 out

theorem dxt3Block_outside (compressed : List Nat) (w h : Nat) :
    ∀ (bi bx c : Nat) (out : List Nat) (p : Nat), ¬ blockPos w h bx c p →
      (dxt3Block compressed w h bi bx c out).getD p 0 = out.getD p 0 := by
  intro bi bx c out p hnb
  unfold dxt3Block
  exact texelLoopPy_untouched w h bx c _
    (fun t o out p hp => dxt3TexelWrite_outside _ _ _ t o out p hp) 4 0 out p (by omega) hnb

theorem dxt5Block_length (compressed : List Nat) (w h bi bx b_y : Nat) (out : List Nat) :
    (dxt5Block compressed w h bi bx b_y out).length = out.length := by
  unfold dxt5Block
  exact texelLoopPy_length w h bx b_y _
    (fun t o out => dxt5TexelWrite_length _ _ _ _ t o out) 4 0 out

theorem dxt5Block_outside (compressed : List Nat) (w h : Nat) :
    ∀ (bi bx c : Nat) (out : List Nat) (p : Nat), ¬ blockPos w h bx c p →
      (dxt5Block compressed w h bi bx c out).getD p 0 = out.getD p 0 := by
  intro bi bx c out p hnb
  unfold dxt5Block
  exact texelLoopPy_untouched w h bx c _
    (fun t o out p hp => dxt5TexelWrite_outside _ _ _ _ t o out p hp) 4 0 out p (by omega) hnb

theorem decompress_dxt1_length (compressed output : List Nat) (w h : Nat) :
    (decompress_dxt1 compressed output w h).length = output.length :=
  blockLoopBy_snd_length _ _ _ _ (fun bi bx c out => dxt1Block_length compressed w h bi bx c out)
    _ _ _ _

theorem decompress_dxt3_length (compressed output : List Nat) (w h : Nat) :
    (decompress_dxt3 compressed output w h).length = output.length :=
  blockLoopBy_snd_length _ _ _ _ (fun bi bx c out => dxt3Block_length compressed w h bi bx c out)
    _ _ _ _

theorem decompress_dxt5_length (compressed output : List Nat) (w h : Nat) :
    (decompress_dxt5 compressed output w h).length = output.length :=
  blockLoopBy_snd_length _ _ _ _ (fun bi bx c out => dxt5Block_length compressed w h bi bx c out)
    _ _ _ _

/-- Any byte of a pixel lying in a block whose index exceeds the number of
whole blocks present in the compressed data stays at its initial zero. -/
theorem blockDecompress_zero (w h len_c bs : Nat)
    (step : Nat → Nat → Nat → List Nat → List Nat)
    (HstepOut : ∀ bi bx c out p, ¬ blockPos w h bx c p →
      (step bi bx c out).getD p 0 = out.getD p 0)
    (x y k : Nat) (hx : x < w) (hy : y < h) (hk : k < 4)
    (hshort : len_c < ((y / 4) * ((w + 3) / 4) + x / 4) * bs + bs) :
    ((blockLoopBy len_c bs step ((w + 3) / 4) 0 ((h + 3) / 4) 0
        (List.replicate (w * h * 4) 0)).2).getD ((y * w + x) * 4 + k) 0 = 0 := by
  rw [blockLoopBy_untouched w h len_c bs step ((w + 3) / 4) HstepOut ((h + 3) / 4) 0 0 _ _ ?fits]
  · exact getD_replicate_zero _ _
  case fits =>
    intro jy jx hjy hjx
    by_cases hxy : jx = x / 4 ∧ jy = y / 4
    · right
      obtain ⟨h1, h2⟩ := hxy
      subst h1; subst h2
      simpa using hshort
    · left
      rintro ⟨x', y', k', hx', hy', hdx, hdy, hk', heq⟩
      obtain ⟨e1, e2, _⟩ := pos_inj hx hx' hk hk' heq
      exact hxy ⟨by omega, by omega⟩

theorem decompress_dxt1_zero (compressed : List Nat) (w h x y k : Nat)
    (hx : x < w) (hy : y < h) (hk : k < 4)
    (hshort : compressed.length < ((y / 4) * ((w + 3) / 4) + x / 4) * 8 + 8) :
    (decompress_dxt1 compressed (List.replicate (w * h * 4) 0) w h).getD
      ((y * w + x) * 4 + k) 0 = 0 := by
  unfold decompress_dxt1
  exact blockDecompress_zero w h compressed.length 8 _
    (dxt1Block_outside compressed w h) x y k hx hy hk hshort

theorem decompress_dxt3_zero (compressed : List Nat) (w h x y k : Nat)
    (hx : x < w) (hy : y < h) (hk : k < 4)
    (hshort : compressed.length < ((y / 4) * ((w + 3) / 4) + x / 4) * 16 + 16) :
    (decompress_dxt3 compressed (List.replicate (w * h * 4) 0) w h).getD
      ((y * w + x) * 4 + k) 0 = 0 := by
  unfold decompress_dxt3
  exact blockDecompress_zero w h compressed.length 16 _
    (dxt3Block_outside compressed w h) x y k hx hy hk hshort

theorem decompress_dxt5_zero (compressed : List Nat) (w h x y k : Nat)
    (hx : x < w) (hy : y < h) (hk : k < 4)
    (hshort : compressed.length < ((y / 4) * ((w + 3) / 4) + x / 4) * 16 + 16) :
    (decompress_dxt5 compressed (List.replicate (w * h * 4) 0) w h).getD
      ((y * w + x) * 4 + k) 0 = 0 := by
  unfold decompress_dxt5
  exact blockDecompress_zero w h compressed.length 16 _
    (dxt5Block_outside compressed w h) x y k hx hy hk hshort

/-! ### Lemmas about the per-pixel loop, the gray fill and the raw copy -/

theorem pixelLoop_length (rawLen : Nat) (need : Nat → Nat) (write : Nat → List Nat → List Nat)
    (HwLen : ∀ i out, (write i out).length = out.length) :
    ∀ (n i : Nat) (out : List Nat), (pixelLoop rawLen need write i n out).length = out.length := by
  intro n
  induction n with
  | zero => intro i out; rfl
  | succ n ih =>
    intro i out
    rw [pixelLoop]
    split
    · rfl
    · rw [ih, HwLen]

theorem pixelLoop_untouched (rawLen : Nat) (need : Nat → Nat)
    (write : Nat → List Nat → List Nat)
    (HwOut : ∀ i out p, p < i * 4 ∨ i * 4 + 4 ≤ p → (write i out).getD p 0 = out.getD p 0) :
    ∀ (n i : Nat) (out : List Nat) (i0 k : Nat), k < 4 → rawLen ≤ need i0 → i ≤ i0 →
      (pixelLoop rawLen need write i n out).getD (i0 * 4 + k) 0 = out.getD (i0 * 4 + k) 0 := by
  intro n
  induction n with
  | zero => intro i out i0 k _ _ _; rfl
  | succ n ih =>
    intro i out i0 k hk hneed hle
    rw [pixelLoop]
    split
    · rfl
    · rename_i hni
      rcases Nat.eq_or_lt_of_le hle with heq | hlt
      · subst heq
        exact absurd hneed hni
      · rw [ih (i + 1) _ i0 k hk hneed (by omega)]
        exact HwOut i out _ (Or.inr (by omega))

theorem grayFill_length : ∀ (n i : Nat) (out : List Nat), (grayFill out i n).length = out.length := by
  intro n
  induction n with
  | zero => intro i out; rfl
  | succ n ih =>
    intro i out
    rw [grayFill]
    split
    · rw [ih, set4_length]
    · rfl

theorem grayFill_untouched : ∀ (n i : Nat) (out : List Nat) (p : Nat), p < i →
    (grayFill out i n).getD p 0 = out.getD p 0 := by
  intro n
  induction n with
  | zero => intro i out p _; rfl
  | succ n ih =>
    intro i out p hp
    rw [grayFill]
    split
    · rw [ih (i + 4) _ p (by omega)]
      exact set4_getD_outside _ _ _ _ _ _ _ (Or.inl hp)
    · rfl

theorem grayFill_getD : ∀ (n i : Nat) (out : List Nat) (j : Nat), out.length % 4 = 0 →
    i % 4 = 0 → i ≤ j → j < out.length → j < i + 4 * n →
    (grayFill out i n).getD j 0 = if j % 4 = 3 then 255 else 128 := by
  intro n
  induction n with
  | zero => intro i out j _ _ _ _ h; omega
  | succ n ih =>
    intro i out j hl4 hi4 hij hjlen hjn
    rw [grayFill, if_pos (by omega)]
    by_cases hj4 : j < i + 4
    · rw [grayFill_untouched n (i + 4) _ j (by omega)]
      have hset := set4_getD out i 128 128 128 255 (j - i) (by omega) (by omega)
      have harr : i + (j - i) = j := by omega
      rw [harr] at hset
      rw [hset]
      have hji : j - i = j % 4 := by omega
      rcases (by omega : j % 4 = 0 ∨ j % 4 = 1 ∨ j % 4 = 2 ∨ j % 4 = 3) with h | h | h | h <;>
        simp [hji, h]
    · exact ih (i + 4) _ j (by rw [set4_length]; exact hl4) (by omega) (by omega)
        (by rw [set4_length]; exact hjlen) (by omega)

theorem grayFill_full_length (L : Nat) :
    (grayFill (List.replicate L (0 : Nat)) 0 (List.replicate L (0 : Nat)).length).length = L := by
  rw [grayFill_length, List.length_replicate]

theorem grayFill_full (L j : Nat) (hL4 : L % 4 = 0) (hj : j < L) :
    (grayFill (List.replicate L (0 : Nat)) 0 (List.replicate L (0 : Nat)).length).getD j 0 =
      if j % 4 = 3 then 255 else 128 := by
  apply grayFill_getD
  · simpa using hL4
  · rfl
  · omega
  · simpa using hj
  · simp
    omega

theorem sliceAssign_length (L : Nat) (raw : List Nat) :
    (sliceAssign (List.replicate L (0 : Nat)) raw).length = L := by
  unfold sliceAssign
  simp [List.length_take, List.length_drop]

theorem sliceAssign_getD (L : Nat) (raw : List Nat) (j : Nat) (hj : j < L) :
    (sliceAssign (List.replicate L (0 : Nat)) raw).getD j 0 =
      if j < raw.length then raw.getD j 0 else 0 := by
  unfold sliceAssign
  rw [List.length_replicate, List.getD_eq_getElem?_getD]
  by_cases hjm : j < min raw.length L
  · rw [List.getElem?_append_left (by simp [List.length_take]; omega)]
    rw [List.getElem?_take, if_pos (by omega)]
    rw [if_pos (by omega)]
    rw [List.getD_eq_getElem?_getD]
  · rw [List.getElem?_append_right (by simp [List.length_take]; omega)]
    rw [List.drop_replicate, List.getElem?_replicate]
    rw [if_pos (by simp [List.length_take]; omega)]
    rw [if_neg (by omega)]
    rfl

/-! ### Write-spec lemmas for the per-pixel writers -/

theorem bgra8888Write_length (data : List Nat) (i : Nat) (out : List Nat) :
    (bgra8888Write data i out).length = out.length := by
  unfold bgra8888Write
  exact set4_length _ _ _ _ _ _

theorem bgra8888Write_outside (data : List Nat) (i : Nat) (out : List Nat) (p : Nat)
    (h : p < i * 4 ∨ i * 4 + 4 ≤ p) :
    (bgra8888Write data i out).getD p 0 = out.getD p 0 := by
  unfold bgra8888Write
  exact set4_getD_outside _ _ _ _ _ _ _ h

theorem rgb888Write_length (data : List Nat) (i : Nat) (out : List Nat) :
    (rgb888Write data i out).length = out.length := by
  unfold rgb888Write
  exact set4_length _ _ _ _ _ _

theorem rgb888Write_outside (data : List Nat) (i : Nat) (out : List Nat) (p : Nat)
    (h : p < i * 4 ∨ i * 4 + 4 ≤ p) :
    (rgb888Write data i out).getD p 0 = out.getD p 0 := by
  unfold rgb888Write
  exact set4_getD_outside _ _ _ _ _ _ _ h

theorem bgr888Write_length (data : List Nat) (i : Nat) (out : List Nat) :
    (bgr888Write data i out).length = out.length := by
  unfold bgr888Write
  exact set4_length _ _ _ _ _ _

theorem bgr888Write_outside (data : List Nat) (i : Nat) (out : List Nat) (p : Nat)
    (h : p < i * 4 ∨ i * 4 + 4 ≤ p) :
    (bgr888Write data i out).getD p 0 = out.getD p 0 := by
  unfold bgr888Write
  exact set4_getD_outside _ _ _ _ _ _ _ h

theorem i8Write_length (data : List Nat) (i : Nat) (out : List Nat) :
    (i8Write data i out).length = out.length := by
  unfold i8Write
  exact set4_length _ _ _ _ _ _

theorem i8Write_outside (data : List Nat) (i : Nat) (out : List Nat) (p : Nat)
    (h : p < i * 4 ∨ i * 4 + 4 ≤ p) :
    (i8Write data i out).getD p 0 = out.getD p 0 := by
  unfold i8Write
  exact set4_getD_outside _ _ _ _ _ _ _ h

theorem a8Write_length (data : List Nat) (i : Nat) (out : List Nat) :
    (a8Write data i out).length = out.length := by
  unfold a8Write
  exact set4_length _ _ _ _ _ _

theorem a8Write_outside (data : List Nat) (i : Nat) (out : List Nat) (p : Nat)
    (h : p < i * 4 ∨ i * 4 + 4 ≤ p) :
    (a8Write data i out).getD p 0 = out.getD p 0 := by
  unfold a8Write
  exact set4_getD_outside _ _ _ _ _ _ _ h

theorem argb8888Write_length (data : List Nat) (i : Nat) (out : List Nat) :
    (argb8888Write data i out).length = out.length := by
  unfold argb8888Write
  exact set4_length _ _ _ _ _ _

theorem argb8888Write_outside (data : List Nat) (i : Nat) (out : List Nat) (p : Nat)
    (h : p < i * 4 ∨ i * 4 + 4 ≤ p) :
    (argb8888Write data i out).getD p 0 = out.getD p 0 := by
  unfold argb8888Write
  exact set4_getD_outside _ _ _ _ _ _ _ h

/-! ### Claim C6 -/

/-- C6 (confirmed): for every pixel-format enum value without a branch in the
decode dispatch (all formats outside `supportedFormats`, e.g. `RGB565`,
`IA88`, `P8`), and every width, height and raw input, decode does not fail:
it returns a buffer of length `width*height*4` in which every pixel is the
fixed neutral gray `(128, 128, 128, 255)`. -/
theorem c6_gray_fallback (fmt : VtfImageFormat) (w h : Nat) (raw : List Nat)
    (hf : fmt ∉ supportedFormats) :
    (convert_format_to_rgba raw w h fmt).length = w * h * 4 ∧
    ∀ i, i < w * h →
      (convert_format_to_rgba raw w h fmt).getD (i * 4) 0 = 128 ∧
      (convert_format_to_rgba raw w h fmt).getD (i * 4 + 1) 0 = 128 ∧
      (convert_format_to_rgba raw w h fmt).getD (i * 4 + 2) 0 = 128 ∧
      (convert_format_to_rgba raw w h fmt).getD (i * 4 + 3) 0 = 255 := by
  cases fmt <;> first
    | exact absurd (by decide) hf
    | (simp only [convert_format_to_rgba]
       refine ⟨grayFill_full_length _, fun i hi => ⟨?_, ?_, ?_, ?_⟩⟩
       · rw [grayFill_full (w * h * 4) (i * 4) (by omega) (by omega), if_neg (by omega)]
       · rw [grayFill_full (w * h * 4) (i * 4 + 1) (by omega) (by omega), if_neg (by omega)]
       · rw [grayFill_full (w * h * 4) (i * 4 + 2) (by omega) (by omega), if_neg (by omega)]
       · rw [grayFill_full (w * h * 4) (i * 4 + 3) (by omega) (by omega), if_pos (by omega)])

theorem c6_gray_fallback_witness :
    (convert_format_to_rgba [] 1 1 VtfImageFormat.RGB565).getD (0 * 4 + 3) 0 = 255 :=
  ((c6_gray_fallback VtfImageFormat.RGB565 1 1 [] (by decide)).2 0 (by decide)).2.2.2

/-! ### Claim C5 -/

/-- C5, as stated, is false for `RGBA8888`: decoding raw `[1,2,3,4,5]` at
2x1 (8 bytes required) copies all five raw bytes verbatim, so byte 4 — which
belongs to the second, only partially present pixel and per the claim should
be part of the zeroed remainder — holds the value 5, not 0. -/
theorem c5_counterexample :
    convert_format_to_rgba [1, 2, 3, 4, 5] 2 1 VtfImageFormat.RGBA8888 =
      [1, 2, 3, 4, 5, 0, 0, 0] ∧
    (convert_format_to_rgba [1, 2, 3, 4, 5] 2 1 VtfImageFormat.RGBA8888).getD 4 0 ≠ 0 := by
  decide

/-- C5 (amended): for every supported format, decode is total and returns a
buffer of length `width*height*4` even on short input.  Every supported
format except `RGBA8888` decodes only whole pixels/blocks and leaves each
byte of an undecodable pixel zero: for `BGRA8888`/`ARGB8888` a pixel `i`
with `raw.length ≤ i*4+3`, for `RGB888`/`BGR888` with `raw.length ≤ i*3+2`,
for `I8`/`A8` with `raw.length ≤ i`, and for the DXT formats every pixel of
a block that is not wholly present.  `RGBA8888` instead copies
`min(raw.length, width*height*4)` raw bytes verbatim — including a trailing
partial pixel — and leaves only the bytes beyond that copy zero. -/
theorem c5_partial_data (fmt : VtfImageFormat) (w h : Nat) (raw : List Nat)
    (hf : fmt ∈ supportedFormats) :
    (convert_format_to_rgba raw w h fmt).length = w * h * 4 ∧
    (fmt = .RGBA8888 → ∀ j, j < w * h * 4 →
      (convert_format_to_rgba raw w h fmt).getD j 0 =
        if j < raw.length then raw.getD j 0 else 0) ∧
    ((fmt = .BGRA8888 ∨ fmt = .ARGB8888) → ∀ i k, i < w * h → k < 4 →
      raw.length ≤ i * 4 + 3 →
      (convert_format_to_rgba raw w h fmt).getD (i * 4 + k) 0 = 0) ∧
    ((fmt = .RGB888 ∨ fmt = .BGR888) → ∀ i k, i < w * h → k < 4 →
      raw.length ≤ i * 3 + 2 →
      (convert_format_to_rgba raw w h fmt).getD (i * 4 + k) 0 = 0) ∧
    ((fmt = .I8 ∨ fmt = .A8) → ∀ i k, i < w * h → k < 4 → raw.length ≤ i →
      (convert_format_to_rgba raw w h fmt).getD (i * 4 + k) 0 = 0) ∧
    ((fmt = .DXT1 ∨ fmt = .DXT1_ONEBITALPHA) → ∀ x y k, x < w → y < h → k < 4 →
      raw.length < ((y / 4) * ((w + 3) / 4) + x / 4) * 8 + 8 →
      (convert_format_to_rgba raw w h fmt).getD ((y * w + x) * 4 + k) 0 = 0) ∧
    ((fmt = .DXT3 ∨ fmt = .DXT5) → ∀ x y k, x < w → y < h → k < 4 →
      raw.length < ((y / 4) * ((w + 3) / 4) + x / 4) * 16 + 16 →
      (convert_format_to_rgba raw w h fmt).getD ((y * w + x) * 4 + k) 0 = 0) := by
  cases fmt <;> try exact absurd hf (by decide)
  case RGBA8888 =>
    simp only [convert_format_to_rgba]
    refine ⟨sliceAssign_length _ _, fun _ j hj => sliceAssign_getD _ _ j hj, ?_, ?_, ?_, ?_, ?_⟩ <;>
      exact fun hc => by rcases hc with hc | hc <;> exact absurd hc (by decide)
  case BGRA8888 =>
    simp only [convert_format_to_rgba]
    refine ⟨?_, ?_, ?_, ?_, ?_, ?_, ?_⟩
    · rw [pixelLoop_length _ _ _ (fun i out => bgra8888Write_length raw i out),
        List.length_replicate]
    · exact fun hc => absurd hc (by decide)
    · intro _ i k hi hk hneed
      exact (pixelLoop_untouched raw.length _ _
        (fun i out p hp => bgra8888Write_outside raw i out p hp) (w * h) 0 _ i k hk hneed
        (Nat.zero_le _)).trans (getD_replicate_zero _ _)
    all_goals exact fun hc => by rcases hc with hc | hc <;> exact absurd hc (by decide)
  case ARGB8888 =>
    simp only [convert_format_to_rgba]
    refine ⟨?_, ?_, ?_, ?_, ?_, ?_, ?_⟩
    · rw [pixelLoop_length _ _ _ (fun i out => argb8888Write_length raw i out),
        List.length_replicate]
    · exact fun hc => absurd hc (by decide)
    · intro _ i k hi hk hneed
      exact (pixelLoop_untouched raw.length _ _
        (fun i out p hp => argb8888Write_outside raw i out p hp) (w * h) 0 _ i k hk hneed
        (Nat.zero_le _)).trans (getD_replicate_zero _ _)
    all_goals exact fun hc => by rcases hc with hc | hc <;> exact absurd hc (by decide)
  case RGB888 =>
    simp only [convert_format_to_rgba]
    refine ⟨?_, ?_, ?_, ?_, ?_, ?_, ?_⟩
    · rw [pixelLoop_length _ _ _ (fun i out => rgb888Write_length raw i out),
        List.length_replicate]
    · exact fun hc => absurd hc (by decide)
    · exact fun hc => by rcases hc with hc | hc <;> exact absurd hc (by decide)
    · intro _ i k hi hk hneed
      exact (pixelLoop_untouched raw.length _ _
        (fun i out p hp => rgb888Write_outside raw i out p hp) (w * h) 0 _ i k hk hneed
        (Nat.zero_le _)).trans (getD_replicate_zero _ _)
    all_goals exact fun hc => by rcases hc with hc | hc <;> exact absurd hc (by decide)
  case BGR888 =>
    simp only [convert_format_to_rgba]
    refine ⟨?_, ?_, ?_, ?_, ?_, ?_, ?_⟩
    · rw [pixelLoop_length _ _ _ (fun i out => bgr888Write_length raw i out),
        List.length_replicate]
    · exact fun hc => absurd hc (by decide)
    · exact fun hc => by rcases hc with hc | hc <;> exact absurd hc (by decide)
    · intro _ i k hi hk hneed
      exact (pixelLoop_untouched raw.length _ _
        (fun i out p hp => bgr888Write_outside raw i out p hp) (w * h) 0 _ i k hk hneed
        (Nat.zero_le _)).trans (getD_replicate_zero _ _)
    all_goals exact fun hc => by rcases hc with hc | hc <;> exact absurd hc (by decide)
  case I8 =>
    simp only [convert_format_to_rgba]
    refine ⟨?_, ?_, ?_, ?_, ?_, ?_, ?_⟩
    · rw [pixelLoop_length _ _ _ (fun i out => i8Write_length raw i out),
        List.length_replicate]
    · exact fun hc => absurd hc (by decide)
    · exact fun hc => by rcases hc with hc | hc <;> exact absurd hc (by decide)
    · exact fun hc => by rcases hc with hc | hc <;> exact absurd hc (by decide)
    · intro _ i k hi hk hneed
      exact (pixelLoop_untouched raw.length _ _
        (fun i out p hp => i8Write_outside raw i out p hp) (w * h) 0 _ i k hk hneed
        (Nat.zero_le _)).trans (getD_replicate_zero _ _)
    all_goals exact fun hc => by rcases hc with hc | hc <;> exact absurd hc (by decide)
  case A8 =>
    simp only [convert_format_to_rgba]
    refine ⟨?_, ?_, ?_, ?_, ?_, ?_, ?_⟩
    · rw [pixelLoop_length _ _ _ (fun i out => a8Write_length raw i out),
        List.length_replicate]
    · exact fun hc => absurd hc (by decide)
    · exact fun hc => by rcases hc with hc | hc <;> exact absurd hc (by decide)
    · exact fun hc => by rcases hc with hc | hc <;> exact absurd hc (by decide)
    · intro _ i k hi hk hneed
      exact (pixelLoop_untouched raw.length _ _
        (fun i out p hp => a8Write_outside raw i out p hp) (w * h) 0 _ i k hk hneed
        (Nat.zero_le _)).trans (getD_replicate_zero _ _)
    all_goals exact fun hc => by rcases hc with hc | hc <;> exact absurd hc (by decide)
  case DXT1 =>
    simp only [convert_format_to_rgba]
    refine ⟨?_, ?_, ?_, ?_, ?_, ?_, ?_⟩
    · rw [decompress_dxt1_length, List.length_replicate]
    · exact fun hc => absurd hc (by decide)
    · exact fun hc => by rcases hc with hc | hc <;> exact absurd hc (by decide)
    · exact fun hc => by rcases hc with hc | hc <;> exact absurd hc (by decide)
    · exact fun hc => by rcases hc with hc | hc <;> exact absurd hc (by decide)
    · intro _ x y k hx hy hk hshort
      exact decompress_dxt1_zero raw w h x y k hx hy hk hshort
    · exact fun hc => by rcases hc with hc | hc <;> exact absurd hc (by decide)
  case DXT1_ONEBITALPHA =>
    simp only [convert_format_to_rgba]
    refine ⟨?_, ?_, ?_, ?_, ?_, ?_, ?_⟩
    · rw [decompress_dxt1_length, List.length_replicate]
    · exact fun hc => absurd hc (by decide)
    · exact fun hc => by rcases hc with hc | hc <;> exact absurd hc (by decide)
    · exact fun hc => by rcases hc with hc | hc <;> exact absurd hc (by decide)
    · exact fun hc => by rcases hc with hc | hc <;> exact absurd hc (by decide)
    · intro _ x y k hx hy hk hshort
      exact decompress_dxt1_zero raw w h x y k hx hy hk hshort
    · exact fun hc => by rcases hc with hc | hc <;> exact absurd hc (by decide)
  case DXT3 =>
    simp only [convert_format_to_rgba]
    refine ⟨?_, ?_, ?_, ?_, ?_, ?_, ?_⟩
    · rw [decompress_dxt3_length, List.length_replicate]
    · exact fun hc => absurd hc (by decide)
    · exact fun hc => by rcases hc with hc | hc <;> exact absurd hc (by decide)
    · exact fun hc => by rcases hc with hc | hc <;> exact absurd hc (by decide)
    · exact fun hc => by rcases hc with hc | hc <;> exact absurd hc (by decide)
    · exact fun hc => by rcases hc with hc | hc <;> exact absurd hc (by decide)
    · intro _ x y k hx hy hk hshort
      exact decompress_dxt3_zero raw w h x y k hx hy hk hshort
  case DXT5 =>
    simp only [convert_format_to_rgba]
    refine ⟨?_, ?_, ?_, ?_, ?_, ?_, ?_⟩
    · rw [decompress_dxt5_length, List.length_replicate]
    · exact fun hc => absurd hc (by decide)
    · exact fun hc => by rcases hc with hc | hc <;> exact absurd hc (by decide)
    · exact fun hc => by rcases hc with hc | hc <;> exact absurd hc (by decide)
    · exact fun hc => by rcases hc with hc | hc <;> exact absurd hc (by decide)
    · exact fun hc => by rcases hc with hc | hc <;> exact absurd hc (by decide)
    · intro _ x y k hx hy hk hshort
      exact decompress_dxt5_zero raw w h x y k hx hy hk hshort

theorem c5_partial_data_witness :
    (convert_format_to_rgba [1, 2, 3] 1 1 VtfImageFormat.BGRA8888).getD (0 * 4 + 1) 0 = 0 :=
  (c5_partial_data VtfImageFormat.BGRA8888 1 1 [1, 2, 3] (by decide)).2.2.1
    (Or.inl rfl) 0 1 (by decide) (by decide) (by decide)

/-! ### Single-block decompression readback (claims C7, C8, C9) -/

/-- A block loop over a single block that fits entirely in the data runs the
step exactly once. -/
theorem blockLoopBy_single (len_c bs : Nat) (step : Nat → Nat → Nat → List Nat → List Nat)
    (out : List Nat) (hfit : bs ≤ len_c) :
    (blockLoopBy len_c bs step 1 0 1 0 out).2 = step 0 0 0 out := by
  rw [blockLoopBy, blockLoopBx, if_neg (by omega)]
  rfl

theorem dxt1Colors_length (c0 c1 : Nat) : (dxt1Colors c0 c1).length = 16 := by
  unfold dxt1Colors
  split <;> rfl

/-! ### Claim C7 -/

/-- C7 (confirmed): decoding one DXT1 block (arbitrary 8 block bytes) at 4x4,
the two RGB565 endpoints are decoded via `R = (bits5*255)/31`,
`G = (bits6*255)/63`, `B = (bits5*255)/31`; if `c0 > c1` as raw 16-bit values
the palette is `{c0, c1, (2c0+c1)/3, (c0+2c1)/3}` with alpha 255 everywhere,
so every texel decodes with alpha 255; if `c0 <= c1` the palette is
`{c0, c1, (c0+c1)/2, transparent-black}`, so a texel whose 2-bit index is 3
decodes to R=G=B=0 with alpha 0. -/
theorem c7_dxt1_block (b0 b1 b2 b3 b4 b5 b6 b7 px py : Nat) (out : List Nat)
    (hpx : px < 4) (hpy : py < 4)
    (hout : out = decompress_dxt1 [b0, b1, b2, b3, b4, b5, b6, b7] (List.replicate 64 0) 4 4) :
    let c0 := b0 ||| (b1 <<< 8)
    let c1 := b2 ||| (b3 <<< 8)
    let ind := b4 ||| (b5 <<< 8) ||| (b6 <<< 16) ||| (b7 <<< 24)
    let ci := (ind >>> ((py * 4 + px) * 2)) &&& 3
    let r0 := ((c0 >>> 11) &&& 0x1F) * 255 / 31
    let g0 := ((c0 >>> 5) &&& 0x3F) * 255 / 63
    let bl0 := (c0 &&& 0x1F) * 255 / 31
    let r1 := ((c1 >>> 11) &&& 0x1F) * 255 / 31
    let g1 := ((c1 >>> 5) &&& 0x3F) * 255 / 63
    let bl1 := (c1 &&& 0x1F) * 255 / 31
    (out.getD ((py * 4 + px) * 4 + 3) 0 =
      if c1 < c0 then 255 else if ci = 3 then 0 else 255) ∧
    (out.getD ((py * 4 + px) * 4) 0 =
      if ci = 0 then r0 else if ci = 1 then r1
      else if ci = 2 then (if c1 < c0 then (2 * r0 + r1) / 3 else (r0 + r1) / 2)
      else (if c1 < c0 then (r0 + 2 * r1) / 3 else 0)) ∧
    (out.getD ((py * 4 + px) * 4 + 1) 0 =
      if ci = 0 then g0 else if ci = 1 then g1
      else if ci = 2 then (if c1 < c0 then (2 * g0 + g1) / 3 else (g0 + g1) / 2)
      else (if c1 < c0 then (g0 + 2 * g1) / 3 else 0)) ∧
    (out.getD ((py * 4 + px) * 4 + 2) 0 =
      if ci = 0 then bl0 else if ci = 1 then bl1
      else if ci = 2 then (if c1 < c0 then (2 * bl0 + bl1) / 3 else (bl0 + bl1) / 2)
      else (if c1 < c0 then (bl0 + 2 * bl1) / 3 else 0)) := by
  subst hout
  dsimp only
  have hfull : decompress_dxt1 [b0, b1, b2, b3, b4, b5, b6, b7] (List.replicate 64 0) 4 4 =
      texelLoopPy 4 4 0 0
        (dxt1TexelWrite (dxt1Colors (b0 ||| (b1 <<< 8)) (b2 ||| (b3 <<< 8)))
          (b4 ||| (b5 <<< 8) ||| (b6 <<< 16) ||| (b7 <<< 24))) 0 4 (List.replicate 64 0) := by
    unfold decompress_dxt1
    exact blockLoopBy_single _ 8 _ _ (by simp)
  rw [hfull]
  have key : ∀ k, k < 4 →
      (texelLoopPy 4 4 0 0
        (dxt1TexelWrite (dxt1Colors (b0 ||| (b1 <<< 8)) (b2 ||| (b3 <<< 8)))
          (b4 ||| (b5 <<< 8) ||| (b6 <<< 16) ||| (b7 <<< 24))) 0 4
        (List.replicate 64 0)).getD ((py * 4 + px) * 4 + k) 0 =
      (((dxt1Colors (b0 ||| (b1 <<< 8)) (b2 ||| (b3 <<< 8))).drop
        ((((b4 ||| (b5 <<< 8) ||| (b6 <<< 16) ||| (b7 <<< 24)) >>> ((py * 4 + px) * 2)) &&& 0x3)
          * 4)).take 4).getD k 0 := by
    intro k hk
    have hrb := texelLoopPy_readback 4 4 0 0
      (dxt1TexelWrite (dxt1Colors (b0 ||| (b1 <<< 8)) (b2 ||| (b3 <<< 8)))
        (b4 ||| (b5 <<< 8) ||| (b6 <<< 16) ||| (b7 <<< 24)))
      (fun t k => (((dxt1Colors (b0 ||| (b1 <<< 8)) (b2 ||| (b3 <<< 8))).drop
        ((((b4 ||| (b5 <<< 8) ||| (b6 <<< 16) ||| (b7 <<< 24)) >>> (t * 2)) &&& 0x3) * 4)).take
          4).getD k 0)
      (fun t o out => dxt1TexelWrite_length _ _ t o out)
      (fun t o out p hp => dxt1TexelWrite_outside _ _ t o out p hp)
      (fun t o out ho k hk => dxt1TexelWrite_getD _ _ t o out (dxt1Colors_length _ _) ho k hk)
      4 0 (List.replicate 64 0) py px k (Nat.zero_le _) (by omega) hpx hk
      (by omega) (by omega) (by simp; omega)
    have hpos : ((0 * 4 + py) * 4 + (0 * 4 + px)) * 4 + k = (py * 4 + px) * 4 + k := by omega
    rw [hpos] at hrb
    exact hrb
  have hci : ((b4 ||| (b5 <<< 8) ||| (b6 <<< 16) ||| (b7 <<< 24)) >>> ((py * 4 + px) * 2)) &&& 3 = 0 ∨
      ((b4 ||| (b5 <<< 8) ||| (b6 <<< 16) ||| (b7 <<< 24)) >>> ((py * 4 + px) * 2)) &&& 3 = 1 ∨
      ((b4 ||| (b5 <<< 8) ||| (b6 <<< 16) ||| (b7 <<< 24)) >>> ((py * 4 + px) * 2)) &&& 3 = 2 ∨
      ((b4 ||| (b5 <<< 8) ||| (b6 <<< 16) ||| (b7 <<< 24)) >>> ((py * 4 + px) * 2)) &&& 3 = 3 := by
    have h := Nat.and_le_right
      (n := (b4 ||| (b5 <<< 8) ||| (b6 <<< 16) ||| (b7 <<< 24)) >>> ((py * 4 + px) * 2)) (m := 3)
    omega
  refine ⟨?_, ?_, ?_, ?_⟩
  · rw [key 3 (by omega)]
    rcases hci with hc | hc | hc | hc <;> rw [hc] <;>
      by_cases hcmp : b2 ||| (b3 <<< 8) < b0 ||| (b1 <<< 8) <;>
        simp [dxt1Colors, decode_rgb565, hcmp]
  · have k0 := key 0 (by omega)
    simp only [Nat.add_zero] at k0
    rw [k0]
    rcases hci with hc | hc | hc | hc <;> rw [hc] <;>
      by_cases hcmp : b2 ||| (b3 <<< 8) < b0 ||| (b1 <<< 8) <;>
        simp [dxt1Colors, decode_rgb565, hcmp]
  · rw [key 1 (by omega)]
    rcases hci with hc | hc | hc | hc <;> rw [hc] <;>
      by_cases hcmp : b2 ||| (b3 <<< 8) < b0 ||| (b1 <<< 8) <;>
        simp [dxt1Colors, decode_rgb565, hcmp]
  · rw [key 2 (by omega)]
    rcases hci with hc | hc | hc | hc <;> rw [hc] <;>
      by_cases hcmp : b2 ||| (b3 <<< 8) < b0 ||| (b1 <<< 8) <;>
        simp [dxt1Colors, decode_rgb565, hcmp]

theorem c7_dxt1_block_witness :
    (decompress_dxt1 [0, 0, 255, 255, 228, 0, 0, 0] (List.replicate 64 0) 4 4).getD
      ((0 * 4 + 3) * 4 + 3) 0 = 0 :=
  (c7_dxt1_block 0 0 255 255 228 0 0 0 3 0
    (decompress_dxt1 [0, 0, 255, 255, 228, 0, 0, 0] (List.replicate 64 0) 4 4)
    (by decide) (by decide) rfl).1.trans (by decide)

/-! ### Claim C8 -/

/-- C8 (confirmed): decoding one DXT3 block (arbitrary 16 block bytes) at
4x4, the output alpha of texel `t` is `nibble_t * 17` where `nibble_t` is the
`t`-th 4-bit value of the first 8 bytes, and the color palette is always the
4-color interpolation `{c0, c1, (2c0+c1)/3, (c0+2c1)/3}` regardless of how
`c0` and `c1` compare (no punch-through transparent entry). -/
theorem c8_dxt3_block (b0 b1 b2 b3 b4 b5 b6 b7 b8 b9 b10 b11 b12 b13 b14 b15 px py : Nat)
    (out : List Nat) (hpx : px < 4) (hpy : py < 4)
    (hout : out = decompress_dxt3 [b0, b1, b2, b3, b4, b5, b6, b7, b8, b9, b10, b11, b12,
      b13, b14, b15] (List.replicate 64 0) 4 4) :
    let alphas := b0 ||| (b1 <<< 8) ||| (b2 <<< 16) ||| (b3 <<< 24) ||| (b4 <<< 32) |||
      (b5 <<< 40) ||| (b6 <<< 48) ||| (b7 <<< 56)
    let c0 := b8 ||| (b9 <<< 8)
    let c1 := b10 ||| (b11 <<< 8)
    let ind := b12 ||| (b13 <<< 8) ||| (b14 <<< 16) ||| (b15 <<< 24)
    let t := py * 4 + px
    let ci := (ind >>> (t * 2)) &&& 3
    let r0 := ((c0 >>> 11) &&& 0x1F) * 255 / 31
    let g0 := ((c0 >>> 5) &&& 0x3F) * 255 / 63
    let bl0 := (c0 &&& 0x1F) * 255 / 31
    let r1 := ((c1 >>> 11) &&& 0x1F) * 255 / 31
    let g1 := ((c1 >>> 5) &&& 0x3F) * 255 / 63
    let bl1 := (c1 &&& 0x1F) * 255 / 31
    (out.getD (t * 4 + 3) 0 = ((alphas >>> (t * 4)) &&& 0xF) * 17) ∧
    (out.getD (t * 4) 0 =
      if ci = 0 then r0 else if ci = 1 then r1
      else if ci = 2 then (2 * r0 + r1) / 3 else (r0 + 2 * r1) / 3) ∧
    (out.getD (t * 4 + 1) 0 =
      if ci = 0 then g0 else if ci = 1 then g1
      else if ci = 2 then (2 * g0 + g1) / 3 else (g0 + 2 * g1) / 3) ∧
    (out.getD (t * 4 + 2) 0 =
      if ci = 0 then bl0 else if ci = 1 then bl1
      else if ci = 2 then (2 * bl0 + bl1) / 3 else (bl0 + 2 * bl1) / 3) := by
  dsimp only
  rw [hout]
  have hfull : decompress_dxt3 [b0, b1, b2, b3, b4, b5, b6, b7, b8, b9, b10, b11, b12, b13,
      b14, b15] (List.replicate 64 0) 4 4 =
      texelLoopPy 4 4 0 0
        (dxt3TexelWrite (dxtInterpColors (b8 ||| (b9 <<< 8)) (b10 ||| (b11 <<< 8)))
          (b0 ||| (b1 <<< 8) ||| (b2 <<< 16) ||| (b3 <<< 24) ||| (b4 <<< 32) |||
            (b5 <<< 40) ||| (b6 <<< 48) ||| (b7 <<< 56))
          (b12 ||| (b13 <<< 8) ||| (b14 <<< 16) ||| (b15 <<< 24))) 0 4
        (List.replicate 64 0) := by
    unfold decompress_dxt3
    exact blockLoopBy_single _ 16 _ _ (by simp)
  rw [hfull]
  have key : ∀ k, k < 4 →
      (texelLoopPy 4 4 0 0
        (dxt3TexelWrite (dxtInterpColors (b8 ||| (b9 <<< 8)) (b10 ||| (b11 <<< 8)))
          (b0 ||| (b1 <<< 8) ||| (b2 <<< 16) ||| (b3 <<< 24) ||| (b4 <<< 32) |||
            (b5 <<< 40) ||| (b6 <<< 48) ||| (b7 <<< 56))
          (b12 ||| (b13 <<< 8) ||| (b14 <<< 16) ||| (b15 <<< 24))) 0 4
        (List.replicate 64 0)).getD ((py * 4 + px) * 4 + k) 0 =
      [(dxtInterpColors (b8 ||| (b9 <<< 8)) (b10 ||| (b11 <<< 8))).getD
          ((((b12 ||| (b13 <<< 8) ||| (b14 <<< 16) ||| (b15 <<< 24)) >>>
            ((py * 4 + px) * 2)) &&& 0x3) * 3) 0,
       (dxtInterpColors (b8 ||| (b9 <<< 8)) (b10 ||| (b11 <<< 8))).getD
          ((((b12 ||| (b13 <<< 8) ||| (b14 <<< 16) ||| (b15 <<< 24)) >>>
            ((py * 4 + px) * 2)) &&& 0x3) * 3 + 1) 0,
       (dxtInterpColors (b8 ||| (b9 <<< 8)) (b10 ||| (b11 <<< 8))).getD
          ((((b12 ||| (b13 <<< 8) ||| (b14 <<< 16) ||| (b15 <<< 24)) >>>
            ((py * 4 + px) * 2)) &&& 0x3) * 3 + 2) 0,
       (((b0 ||| (b1 <<< 8) ||| (b2 <<< 16) ||| (b3 <<< 24) ||| (b4 <<< 32) |||
            (b5 <<< 40) ||| (b6 <<< 48) ||| (b7 <<< 56)) >>> ((py * 4 + px) * 4)) &&& 0xF) *
          17].getD k 0 := by
    intro k hk
    have hrb := texelLoopPy_readback 4 4 0 0
      (dxt3TexelWrite (dxtInterpColors (b8 ||| (b9 <<< 8)) (b10 ||| (b11 <<< 8)))
        (b0 ||| (b1 <<< 8) ||| (b2 <<< 16) ||| (b3 <<< 24) ||| (b4 <<< 32) |||
          (b5 <<< 40) ||| (b6 <<< 48) ||| (b7 <<< 56))
        (b12 ||| (b13 <<< 8) ||| (b14 <<< 16) ||| (b15 <<< 24)))
      (fun t k =>
        [(dxtInterpColors (b8 ||| (b9 <<< 8)) (b10 ||| (b11 <<< 8))).getD
            ((((b12 ||| (b13 <<< 8) ||| (b14 <<< 16) ||| (b15 <<< 24)) >>> (t * 2)) &&& 0x3)
              * 3) 0,
         (dxtInterpColors (b8 ||| (b9 <<< 8)) (b10 ||| (b11 <<< 8))).getD
            ((((b12 ||| (b13 <<< 8) ||| (b14 <<< 16) ||| (b15 <<< 24)) >>> (t * 2)) &&& 0x3)
              * 3 + 1) 0,
         (dxtInterpColors (b8 ||| (b9 <<< 8)) (b10 ||| (b11 <<< 8))).getD
            ((((b12 ||| (b13 <<< 8) ||| (b14 <<< 16) ||| (b15 <<< 24)) >>> (t * 2)) &&& 0x3)
              * 3 + 2) 0,
         (((b0 ||| (b1 <<< 8) ||| (b2 <<< 16) ||| (b3 <<< 24) ||| (b4 <<< 32) |||
              (b5 <<< 40) ||| (b6 <<< 48) ||| (b7 <<< 56)) >>> (t * 4)) &&& 0xF) * 17].getD
          k 0)
      (fun t o out => dxt3TexelWrite_length _ _ _ t o out)
      (fun t o out p hp => dxt3TexelWrite_outside _ _ _ t o out p hp)
      (fun t o out ho k hk => dxt3TexelWrite_getD _ _ _ t o out ho k hk)
      4 0 (List.replicate 64 0) py px k (Nat.zero_le _) (by omega) hpx hk
      (by omega) (by omega) (by simp; omega)
    have hpos : ((0 * 4 + py) * 4 + (0 * 4 + px)) * 4 + k = (py * 4 + px) * 4 + k := by omega
    rw [hpos] at hrb
    exact hrb
  have hci : ((b12 ||| (b13 <<< 8) ||| (b14 <<< 16) ||| (b15 <<< 24)) >>>
        ((py * 4 + px) * 2)) &&& 3 = 0 ∨
      ((b12 ||| (b13 <<< 8) ||| (b14 <<< 16) ||| (b15 <<< 24)) >>>
        ((py * 4 + px) * 2)) &&& 3 = 1 ∨
      ((b12 ||| (b13 <<< 8) ||| (b14 <<< 16) ||| (b15 <<< 24)) >>>
        ((py * 4 + px) * 2)) &&& 3 = 2 ∨
      ((b12 ||| (b13 <<< 8) ||| (b14 <<< 16) ||| (b15 <<< 24)) >>>
        ((py * 4 + px) * 2)) &&& 3 = 3 := by
    have h := Nat.and_le_right
      (n := (b12 ||| (b13 <<< 8) ||| (b14 <<< 16) ||| (b15 <<< 24)) >>> ((py * 4 + px) * 2))
      (m := 3)
    omega
  refine ⟨?_, ?_, ?_, ?_⟩
  · rw [key 3 (by omega)]
    simp
  · have k0 := key 0 (by omega)
    simp only [Nat.add_zero] at k0
    rw [k0]
    rcases hci with hc | hc | hc | hc <;> rw [hc] <;>
      simp [dxtInterpColors, decode_rgb565]
  · rw [key 1 (by omega)]
    rcases hci with hc | hc | hc | hc <;> rw [hc] <;>
      simp [dxtInterpColors, decode_rgb565]
  · rw [key 2 (by omega)]
    rcases hci with hc | hc | hc | hc <;> rw [hc] <;>
      simp [dxtInterpColors, decode_rgb565]

theorem c8_dxt3_block_witness :
    (decompress_dxt3 [240, 255, 0, 0, 0, 0, 0, 0, 0, 0, 255, 255, 228, 0, 0, 0]
      (List.replicate 64 0) 4 4).getD ((0 * 4 + 1) * 4 + 3) 0 = 255 :=
  (c8_dxt3_block 240 255 0 0 0 0 0 0 0 0 255 255 228 0 0 0 1 0
    (decompress_dxt3 [240, 255, 0, 0, 0, 0, 0, 0, 0, 0, 255, 255, 228, 0, 0, 0]
      (List.replicate 64 0) 4 4)
    (by decide) (by decide) rfl).1.trans (by decide)

/-! ### Claim C9 -/

/-- C9 (confirmed): decoding one DXT5 block (arbitrary 16 block bytes) at
4x4 with alpha endpoints `a0 = byte 0`, `a1 = byte 1`: each texel's output
alpha is the entry of the 8-value alpha palette selected by its 3-bit index
from the 48-bit index field; when `a0 > a1` the palette is
`{a0, a1, (6a0+a1)/7, (5a0+2a1)/7, (4a0+3a1)/7, (3a0+4a1)/7, (2a0+5a1)/7,
(a0+6a1)/7}`, otherwise
`{a0, a1, (4a0+a1)/5, (3a0+2a1)/5, (2a0+3a1)/5, (a0+4a1)/5, 0, 255}` with
the last two entries fixed. -/
theorem c9_dxt5_block (b0 b1 b2 b3 b4 b5 b6 b7 b8 b9 b10 b11 b12 b13 b14 b15 px py : Nat)
    (out : List Nat) (hpx : px < 4) (hpy : py < 4)
    (hout : out = decompress_dxt5 [b0, b1, b2, b3, b4, b5, b6, b7, b8, b9, b10, b11, b12,
      b13, b14, b15] (List.replicate 64 0) 4 4) :
    let aind := b2 ||| (b3 <<< 8) ||| (b4 <<< 16) ||| (b5 <<< 24) ||| (b6 <<< 32) |||
      (b7 <<< 40)
    let t := py * 4 + px
    let ai := (aind >>> (t * 3)) &&& 7
    out.getD (t * 4 + 3) 0 =
      if ai = 0 then b0 else if ai = 1 then b1
      else if ai = 2 then (if b1 < b0 then (6 * b0 + 1 * b1) / 7 else (4 * b0 + 1 * b1) / 5)
      else if ai = 3 then (if b1 < b0 then (5 * b0 + 2 * b1) / 7 else (3 * b0 + 2 * b1) / 5)
      else if ai = 4 then (if b1 < b0 then (4 * b0 + 3 * b1) / 7 else (2 * b0 + 3 * b1) / 5)
      else if ai = 5 then (if b1 < b0 then (3 * b0 + 4 * b1) / 7 else (1 * b0 + 4 * b1) / 5)
      else if ai = 6 then (if b1 < b0 then (2 * b0 + 5 * b1) / 7 else 0)
      else (if b1 < b0 then (1 * b0 + 6 * b1) / 7 else 255) := by
  dsimp only
  rw [hout]
  have hfull : decompress_dxt5 [b0, b1, b2, b3, b4, b5, b6, b7, b8, b9, b10, b11, b12, b13,
      b14, b15] (List.replicate 64 0) 4 4 =
      texelLoopPy 4 4 0 0
        (dxt5TexelWrite (dxtInterpColors (b8 ||| (b9 <<< 8)) (b10 ||| (b11 <<< 8)))
          (dxt5AlphaPalette b0 b1)
          (b12 ||| (b13 <<< 8) ||| (b14 <<< 16) ||| (b15 <<< 24))
          (b2 ||| (b3 <<< 8) ||| (b4 <<< 16) ||| (b5 <<< 24) ||| (b6 <<< 32) |||
            (b7 <<< 40))) 0 4
        (List.replicate 64 0) := by
    unfold decompress_dxt5
    exact blockLoopBy_single _ 16 _ _ (by simp)
  rw [hfull]
  have hrb := texelLoopPy_readback 4 4 0 0
    (dxt5TexelWrite (dxtInterpColors (b8 ||| (b9 <<< 8)) (b10 ||| (b11 <<< 8)))
      (dxt5AlphaPalette b0 b1)
      (b12 ||| (b13 <<< 8) ||| (b14 <<< 16) ||| (b15 <<< 24))
      (b2 ||| (b3 <<< 8) ||| (b4 <<< 16) ||| (b5 <<< 24) ||| (b6 <<< 32) ||| (b7 <<< 40)))
    (fun t k =>
      [(dxtInterpColors (b8 ||| (b9 <<< 8)) (b10 ||| (b11 <<< 8))).getD
          ((((b12 ||| (b13 <<< 8) ||| (b14 <<< 16) ||| (b15 <<< 24)) >>> (t * 2)) &&& 0x3)
            * 3) 0,
       (dxtInterpColors (b8 ||| (b9 <<< 8)) (b10 ||| (b11 <<< 8))).getD
          ((((b12 ||| (b13 <<< 8) ||| (b14 <<< 16) ||| (b15 <<< 24)) >>> (t * 2)) &&& 0x3)
            * 3 + 1) 0,
       (dxtInterpColors (b8 ||| (b9 <<< 8)) (b10 ||| (b11 <<< 8))).getD
          ((((b12 ||| (b13 <<< 8) ||| (b14 <<< 16) ||| (b15 <<< 24)) >>> (t * 2)) &&& 0x3)
            * 3 + 2) 0,
       (dxt5AlphaPalette b0 b1).getD
          (((b2 ||| (b3 <<< 8) ||| (b4 <<< 16) ||| (b5 <<< 24) ||| (b6 <<< 32) |||
            (b7 <<< 40)) >>> (t * 3)) &&& 0x7) 0].getD k 0)
    (fun t o out => dxt5TexelWrite_length _ _ _ _ t o out)
    (fun t o out p hp => dxt5TexelWrite_outside _ _ _ _ t o out p hp)
    (fun t o out ho k hk => dxt5TexelWrite_getD _ _ _ _ t o out ho k hk)
    4 0 (List.replicate 64 0) py px 3 (Nat.zero_le _) (by omega) hpx (by omega)
    (by omega) (by omega) (by simp; omega)
  have hpos : ((0 * 4 + py) * 4 + (0 * 4 + px)) * 4 + 3 = (py * 4 + px) * 4 + 3 := by omega
  rw [hpos] at hrb
  have key : (texelLoopPy 4 4 0 0
      (dxt5TexelWrite (dxtInterpColors (b8 ||| (b9 <<< 8)) (b10 ||| (b11 <<< 8)))
        (dxt5AlphaPalette b0 b1)
        (b12 ||| (b13 <<< 8) ||| (b14 <<< 16) ||| (b15 <<< 24))
        (b2 ||| (b3 <<< 8) ||| (b4 <<< 16) ||| (b5 <<< 24) ||| (b6 <<< 32) ||| (b7 <<< 40)))
      0 4 (List.replicate 64 0)).getD ((py * 4 + px) * 4 + 3) 0 =
      (dxt5AlphaPalette b0 b1).getD
        (((b2 ||| (b3 <<< 8) ||| (b4 <<< 16) ||| (b5 <<< 24) ||| (b6 <<< 32) |||
          (b7 <<< 40)) >>> ((py * 4 + px) * 3)) &&& 0x7) 0 := by
    simpa using hrb
  rw [key]
  have hai : ∀ v : Nat, v &&& 7 = 0 ∨ v &&& 7 = 1 ∨ v &&& 7 = 2 ∨ v &&& 7 = 3 ∨ v &&& 7 = 4 ∨
      v &&& 7 = 5 ∨ v &&& 7 = 6 ∨ v &&& 7 = 7 := by
    intro v
    have h := Nat.and_le_right (n := v) (m := 7)
    omega
  rcases hai ((b2 ||| (b3 <<< 8) ||| (b4 <<< 16) ||| (b5 <<< 24) ||| (b6 <<< 32) |||
      (b7 <<< 40)) >>> ((py * 4 + px) * 3)) with
    hc | hc | hc | hc | hc | hc | hc | hc <;> rw [hc] <;>
    by_cases hcmp : b1 < b0 <;> simp [dxt5AlphaPalette, hcmp]

theorem c9_dxt5_block_witness :
    (decompress_dxt5 [100, 200, 240, 1, 0, 0, 0, 0, 0, 0, 0, 0, 0, 0, 0, 0]
      (List.replicate 64 0) 4 4).getD ((0 * 4 + 1) * 4 + 3) 0 = 0 :=
  (c9_dxt5_block 100 200 240 1 0 0 0 0 0 0 0 0 0 0 0 0 1 0
    (decompress_dxt5 [100, 200, 240, 1, 0, 0, 0, 0, 0, 0, 0, 0, 0, 0, 0, 0]
      (List.replicate 64 0) 4 4)
    (by decide) (by decide) rfl).trans (by decide)

end Vtf

